import Mathlib

/-!
# Native pipe operations (`phlib/nativepipe.c`)

A shallow embedding of the pipe primitives of `phlib/nativepipe.c`.

The functions of that file are short sequences of operating-system calls.  Each
one is embedded as a state-passing computation over the *trace* of calls issued
so far.  The operating system is an arbitrary function `OS` from the history of
calls (the call being answered included) to the values that call leaves behind:
its return status, the handle or pointer it stores, and the contents of the
I/O status block and of the output buffer as the caller observes them after the
call.  Theorems quantify over every `OS` and every starting trace, so they hold
for every outcome of the OS calls.

Conventions.
* `NTSTATUS` is the signed 32-bit status value (`LONG`), a member of `Int`.
* `ULONG` values are natural numbers reduced modulo `2 ^ 32` where the C code
  computes them.
* A `HANDLE` or pointer is a natural number, `0` being `NULL`.
* An optional out-pointer argument is a `Bool` (is it non-null?), and the value
  stored through it is an `Option` in the result (`none`: nothing stored).
* Access masks, share modes and create options are not recorded in the trace;
  object names, handles, control codes, payloads, lengths and timeouts are.
-/

namespace NativePipe

/-! ## Platform types and constants -/

/-- Signed 32-bit status code (`LONG`). -/
abbrev NTSTATUS := Int

/-- Kernel object handle; `0` is `NULL`. -/
abbrev HANDLE := Nat

/-- The `NT_SUCCESS` test of the platform headers: `((NTSTATUS)(Status)) >= 0`. -/
def NT_SUCCESS (Status : NTSTATUS) : Bool := decide (0 ≤ Status)

/-- Platform status `STATUS_SUCCESS` (`0x00000000`). -/
def STATUS_SUCCESS : NTSTATUS := 0

/-- Platform status `STATUS_PENDING` (`0x00000103`). -/
def STATUS_PENDING : NTSTATUS := 0x103

/-- Platform status `STATUS_BUFFER_OVERFLOW` (`0x80000005` as a signed 32-bit value). -/
def STATUS_BUFFER_OVERFLOW : NTSTATUS := 0x80000005 - 2 ^ 32

/-- Platform status `STATUS_ACCESS_DENIED` (`0xC0000022` as a signed 32-bit value). -/
def STATUS_ACCESS_DENIED : NTSTATUS := 0xC0000022 - 2 ^ 32

/-- Platform status `STATUS_PIPE_NOT_AVAILABLE` (`0xC00000AC` as a signed 32-bit value). -/
def STATUS_PIPE_NOT_AVAILABLE : NTSTATUS := 0xC00000AC - 2 ^ 32

/-- Truncation of a natural number to a `ULONG`. -/
def toULONG (n : Nat) : Nat := n % 2 ^ 32

/-- Subtraction of two `ULONG` values in unsigned 32-bit arithmetic. -/
def subULONG (a b : Nat) : Nat := (a % 2 ^ 32 + 2 ^ 32 - b % 2 ^ 32) % 2 ^ 32

/-- Platform `IO_STATUS_BLOCK`: completion status and byte count (`ULONG_PTR`). -/
structure IO_STATUS_BLOCK where
  Status : NTSTATUS
  Information : Nat
  deriving DecidableEq, Repr

/-- Platform `LARGE_INTEGER`, seen as its two halves. -/
structure LARGE_INTEGER where
  LowPart : Nat
  HighPart : Int
  deriving DecidableEq, Repr

/-- Platform constant `MINLONG` (`0x80000000` as a signed 32-bit value). -/
def MINLONG : Int := -(2 ^ 31)

/-- The 64-bit signed value `QuadPart` of a `LARGE_INTEGER`, from its two halves. -/
def LARGE_INTEGER.QuadPart (x : LARGE_INTEGER) : Int := x.HighPart * 2 ^ 32 + x.LowPart

/-- Platform `FILE_PIPE_PEEK_BUFFER`: four `ULONG` fields followed by the data bytes. -/
structure FILE_PIPE_PEEK_BUFFER where
  NamedPipeState : Nat
  ReadDataAvailable : Nat
  NumberOfMessages : Nat
  MessageLength : Nat
  Data : List Nat
  deriving DecidableEq, Repr

/-- The value of `FIELD_OFFSET(FILE_PIPE_PEEK_BUFFER, Data)`: four `ULONG` fields precede `Data`. -/
def FIELD_OFFSET_FILE_PIPE_PEEK_BUFFER_Data : Nat := 16

/-- Platform `FILE_PIPE_WAIT_FOR_BUFFER`: timeout, name length in bytes, flag, name (UTF-16 units). -/
structure FILE_PIPE_WAIT_FOR_BUFFER where
  Timeout : LARGE_INTEGER
  NameLength : Nat
  TimeoutSpecified : Bool
  Name : List Nat
  deriving DecidableEq, Repr

/-- The value of `FIELD_OFFSET(FILE_PIPE_WAIT_FOR_BUFFER, Name)`: an 8-byte timeout, a 4-byte
length and a 1-byte flag, padded to the 2-byte alignment of `WCHAR`. -/
def FIELD_OFFSET_FILE_PIPE_WAIT_FOR_BUFFER_Name : Nat := 14

/-- Filesystem-control codes used by `nativepipe.c`. -/
inductive FsControlCode where
  | FSCTL_PIPE_LISTEN
  | FSCTL_PIPE_DISCONNECT
  | FSCTL_PIPE_PEEK
  | FSCTL_PIPE_TRANSCEIVE
  | FSCTL_PIPE_WAIT
  | FSCTL_PIPE_IMPERSONATE
  | FSCTL_PIPE_DISABLE_IMPERSONATE
  | FSCTL_PIPE_GET_CONNECTION_ATTRIBUTE
  | FSCTL_PIPE_GET_PIPE_ATTRIBUTE
  deriving DecidableEq, Repr

open FsControlCode

/-- The input buffer handed to `NtFsControlFile`. -/
inductive InputBuffer where
  | null
  | bytes (b : List Nat)
  | waitFor (w : FILE_PIPE_WAIT_FOR_BUFFER)
  deriving DecidableEq, Repr

/-- The security descriptor placed in the object attributes of a create call. -/
inductive SecurityDescriptorArg where
  | absent
  | caller (sd : Nat)
  | defaultAcl (acl : Nat)
  deriving DecidableEq, Repr

/-- Platform constant `FILE_PIPE_MESSAGE_MODE`. -/
def FILE_PIPE_MESSAGE_MODE : Nat := 1

/-- Platform constant `FILE_PIPE_QUEUE_OPERATION`. -/
def FILE_PIPE_QUEUE_OPERATION : Nat := 0

/-- The platform conversion `UlongToHandle`: `(HANDLE)(ULONG_PTR)(ULONG)`, which keeps the
unsigned 32-bit value and fills the upper bits of the handle with zeros. -/
def UlongToHandle (u : Nat) : HANDLE := (u % 2 ^ 32) % 2 ^ 64

/-- Subtraction in `ULONG_PTR` arithmetic (64-bit; the low 32 bits of the result are the same
on a 32-bit build). -/
def subULONG_PTR (a b : Nat) : Nat := (a % 2 ^ 64 + 2 ^ 64 - b % 2 ^ 64) % 2 ^ 64

/-- The bytes of a C string literal, terminating NUL included. -/
def cString (s : String) : List Nat := s.toList.map Char.toNat ++ [0]

/-- The value of `sizeof` on a C string literal. -/
def sizeofLiteral (s : String) : Nat := s.length + 1

/-- The UTF-16 code units of a wide string literal without its terminator (ASCII text only). -/
def wString (s : String) : List Nat := s.toList.map Char.toNat

/-- Modelled from the spec: the fixed device-namespace prefix `DEVICE_NAMED_PIPE`, declared in a
header outside this file; the spec gives it as `\Device\NamedPipe\`. -/
def DEVICE_NAMED_PIPE : List Nat := wString "\\Device\\NamedPipe\\"

/-- Counted string reference of phlib: byte length and text (UTF-16 units). -/
structure PH_STRINGREF where
  Length : Nat
  Buffer : List Nat
  deriving DecidableEq, Repr

/-- Modelled from the spec: the phlib string helper `PhInitializeStringRefLongHint`, defined in
a header outside this file; it makes the length-tracked value of a NUL-terminated wide string,
whose length is counted in bytes, two for each UTF-16 unit. -/
def PhInitializeStringRefLongHint (Buffer : List Nat) : PH_STRINGREF :=
  { Length := 2 * Buffer.length, Buffer := Buffer }

/-- Modelled from the spec: the phlib string helper `PhConcatStrings2`, defined outside this
file; it makes the concatenation of the device prefix and the caller's name. -/
def PhConcatStrings2 (a b : List Nat) : List Nat := a ++ b

/-! ## Calls, traces and the operating system -/

/-- One call leaving this file, with the arguments the development keeps track of. -/
inductive Event where
  | NtOpenFile (ObjectName : List Nat) (RootDirectory : HANDLE) (Inherit : Bool)
  | NtCreateNamedPipeFile (ObjectName : List Nat) (RootDirectory : HANDLE) (Inherit : Bool)
      (SecurityDescriptor : SecurityDescriptorArg) (DefaultTimeoutMs : Nat)
  | NtCreateFile (ObjectName : List Nat)
  | NtFsControlFile (FileHandle : HANDLE) (Code : FsControlCode) (Input : InputBuffer)
      (InputBufferLength : Nat) (OutputBufferLength : Nat)
  | NtWaitForSingleObject (Handle : HANDLE) (Alertable : Bool) (Timeout : Option Int)
  | NtSetInformationFile (FileHandle : HANDLE) (ReadMode : Nat) (CompletionMode : Nat)
  | NtFlushBuffersFile (FileHandle : HANDLE)
  | NtClose (Handle : HANDLE)
  | RtlDefaultNpAcl
  | RtlFreeHeap (BaseAddress : Nat)
  | PhAllocate (Size : Nat)
  | PhFree (Memory : Nat)
  deriving DecidableEq, Repr

/-- What a call leaves behind, as the caller observes it once the call has returned. -/
structure Resp where
  /-- The returned status. -/
  status : NTSTATUS
  /-- The handle stored through the handle out-pointer (open and create calls). -/
  handle : HANDLE
  /-- The pointer returned or stored (allocator, default ACL provider). -/
  pointer : Nat
  /-- The contents of the I/O status block. -/
  isb : IO_STATUS_BLOCK
  /-- The `ULONG` stored into a 4-byte output buffer, when one was stored. -/
  ulong : Option Nat
  /-- The contents of a peek reply buffer. -/
  peek : FILE_PIPE_PEEK_BUFFER
  deriving Repr

/-- The sequence of calls issued so far, oldest first. -/
abbrev Trace := List Event

/-- The operating system: the response to the last call of a history. -/
abbrev OS := Trace → Resp

/-- Computations that issue calls: state passing over the trace. -/
abbrev M := StateM Trace

/-- Issue one call: append it to the trace and read the response of the operating system. -/
def call (os : OS) (e : Event) : M Resp :=
  fun tr => (os (tr ++ [e]), tr ++ [e])

/-! ## The functions of `nativepipe.c` -/

/-- `PhCreatePipeEx`.  The result carries the values stored through `PipeReadHandle` and
`PipeWriteHandle`.  `SecurityDescriptor` is the caller's pointer, `0` when absent. -/
def PhCreatePipeEx (os : OS) (InheritHandles : Bool) (SecurityDescriptor : Nat) :
    M (NTSTATUS × Option HANDLE × Option HANDLE) := do
  let mut pipeAcl : Nat := 0
  let d ← call os (.NtOpenFile DEVICE_NAMED_PIPE 0 false)
  let mut status := d.status
  let pipeDirectoryHandle := d.handle
  if !NT_SUCCESS status then
    return (status, none, none)
  let mut securityDescriptor := SecurityDescriptorArg.absent
  if SecurityDescriptor ≠ 0 then
    securityDescriptor := .caller SecurityDescriptor
  else
    let a ← call os .RtlDefaultNpAcl
    pipeAcl := a.pointer
    if NT_SUCCESS a.status then
      securityDescriptor := .defaultAcl pipeAcl
  let c ← call os (.NtCreateNamedPipeFile [] pipeDirectoryHandle InheritHandles
    securityDescriptor 120000)
  status := c.status
  let pipeReadHandle := c.handle
  if !NT_SUCCESS status then
    if pipeAcl ≠ 0 then
      let _ ← call os (.RtlFreeHeap pipeAcl)
    let _ ← call os (.NtClose pipeDirectoryHandle)
    return (status, none, none)
  let w ← call os (.NtOpenFile [] pipeReadHandle InheritHandles)
  status := w.status
  let pipeWriteHandle := w.handle
  let mut PipeReadHandle : Option HANDLE := none
  let mut PipeWriteHandle : Option HANDLE := none
  if NT_SUCCESS status then
    PipeReadHandle := some pipeReadHandle
    PipeWriteHandle := some pipeWriteHandle
  if pipeAcl ≠ 0 then
    let _ ← call os (.RtlFreeHeap pipeAcl)
  let _ ← call os (.NtClose pipeDirectoryHandle)
  return (status, PipeReadHandle, PipeWriteHandle)

/-- `PhCreatePipe`. -/
def PhCreatePipe (os : OS) : M (NTSTATUS × Option HANDLE × Option HANDLE) :=
  PhCreatePipeEx os false 0

/-- `PhCreateNamedPipe`.  The result carries the value stored through `PipeHandle`. -/
def PhCreateNamedPipe (os : OS) (PipeName : List Nat) : M (NTSTATUS × Option HANDLE) := do
  let mut pipeAcl : Nat := 0
  let pipeName := PhConcatStrings2 DEVICE_NAMED_PIPE PipeName
  let mut securityDescriptor := SecurityDescriptorArg.absent
  let a ← call os .RtlDefaultNpAcl
  pipeAcl := a.pointer
  if NT_SUCCESS a.status then
    securityDescriptor := .defaultAcl pipeAcl
  let c ← call os (.NtCreateNamedPipeFile pipeName 0 false securityDescriptor 1000)
  let status := c.status
  let pipeHandle := c.handle
  let mut PipeHandle : Option HANDLE := none
  if NT_SUCCESS status then
    PipeHandle := some pipeHandle
  if pipeAcl ≠ 0 then
    let _ ← call os (.RtlFreeHeap pipeAcl)
  return (status, PipeHandle)

/-- `PhConnectPipe`.  The result carries the value stored through `PipeHandle`. -/
def PhConnectPipe (os : OS) (PipeName : List Nat) : M (NTSTATUS × Option HANDLE) := do
  let pipeName := PhConcatStrings2 DEVICE_NAMED_PIPE PipeName
  let c ← call os (.NtCreateFile pipeName)
  let status := c.status
  let pipeHandle := c.handle
  let mut PipeHandle : Option HANDLE := none
  if NT_SUCCESS status then
    PipeHandle := some pipeHandle
  return (status, PipeHandle)

/-- `PhListenNamedPipe`. -/
def PhListenNamedPipe (os : OS) (PipeHandle : HANDLE) : M NTSTATUS := do
  let r ← call os (.NtFsControlFile PipeHandle FSCTL_PIPE_LISTEN .null 0 0)
  let mut status := r.status
  let mut isb := r.isb
  if status = STATUS_PENDING then
    let w ← call os (.NtWaitForSingleObject PipeHandle false none)
    status := w.status
    isb := w.isb
    if NT_SUCCESS status then
      status := isb.Status
  return status

/-- `PhDisconnectNamedPipe`. -/
def PhDisconnectNamedPipe (os : OS) (PipeHandle : HANDLE) : M NTSTATUS := do
  let r ← call os (.NtFsControlFile PipeHandle FSCTL_PIPE_DISCONNECT .null 0 0)
  let mut status := r.status
  let mut isb := r.isb
  if status = STATUS_PENDING then
    let w ← call os (.NtWaitForSingleObject PipeHandle false none)
    status := w.status
    isb := w.isb
    if NT_SUCCESS status then
      status := isb.Status
  return status

/-- What `PhPeekNamedPipe` stores through its out-pointers.  `CopyLength` is the byte count
handed to `memcpy` and `Buffer` the bytes it reads from the reply data. -/
structure PeekOutputs where
  CopyLength : Option Nat
  Buffer : Option (List Nat)
  NumberOfBytesRead : Option Nat
  NumberOfBytesAvailable : Option Nat
  NumberOfBytesLeftInMessage : Option Nat
  deriving DecidableEq, Repr

/-- The block of `PhPeekNamedPipe` guarded by `if (NT_SUCCESS(status))`: what it stores through
the out-pointers, from the I/O status block and the reply buffer.  The four `Bool` arguments say
which out-pointers are non-null; an out-pointer that is null has nothing stored through it. -/
def PhPeekNamedPipe.store (Buffer NumberOfBytesRead NumberOfBytesAvailable
    NumberOfBytesLeftInMessage : Bool) (isb : IO_STATUS_BLOCK)
    (peekBuffer : FILE_PIPE_PEEK_BUFFER) : PeekOutputs :=
  let numberOfBytesRead : Nat :=
    if (Buffer || NumberOfBytesRead || NumberOfBytesLeftInMessage) = true then
      toULONG (subULONG_PTR isb.Information FIELD_OFFSET_FILE_PIPE_PEEK_BUFFER_Data)
    else 0
  { CopyLength := if Buffer = true then some numberOfBytesRead else none
    Buffer := if Buffer = true then some (peekBuffer.Data.take numberOfBytesRead) else none
    NumberOfBytesRead := if NumberOfBytesRead = true then some numberOfBytesRead else none
    NumberOfBytesAvailable :=
      if NumberOfBytesAvailable = true then some peekBuffer.ReadDataAvailable else none
    NumberOfBytesLeftInMessage :=
      if NumberOfBytesLeftInMessage = true then
        some (subULONG peekBuffer.MessageLength numberOfBytesRead)
      else none }

/-- `PhPeekNamedPipe`.  The four `Bool` arguments say which out-pointers are non-null. -/
def PhPeekNamedPipe (os : OS) (PipeHandle : HANDLE) (Buffer : Bool) (Length : Nat)
    (NumberOfBytesRead NumberOfBytesAvailable NumberOfBytesLeftInMessage : Bool) :
    M (NTSTATUS × PeekOutputs) := do
  let peekBufferLength := toULONG (FIELD_OFFSET_FILE_PIPE_PEEK_BUFFER_Data + Length)
  let a ← call os (.PhAllocate peekBufferLength)
  let peekBuffer := a.pointer
  let r ← call os (.NtFsControlFile PipeHandle FSCTL_PIPE_PEEK .null 0 peekBufferLength)
  let mut status := r.status
  let mut isb := r.isb
  let mut reply := r.peek
  if status = STATUS_PENDING then
    let w ← call os (.NtWaitForSingleObject PipeHandle false none)
    status := w.status
    isb := w.isb
    reply := w.peek
    if NT_SUCCESS status then
      status := isb.Status
  -- STATUS_BUFFER_OVERFLOW means that there is data remaining; this is normal.
  if status = STATUS_BUFFER_OVERFLOW then
    status := STATUS_SUCCESS
  let mut out : PeekOutputs := ⟨none, none, none, none, none⟩
  if NT_SUCCESS status then
    out := PhPeekNamedPipe.store Buffer NumberOfBytesRead NumberOfBytesAvailable
      NumberOfBytesLeftInMessage isb reply
  let _ ← call os (.PhFree peekBuffer)
  return (status, out)

/-- `PhTransceiveNamedPipe`. -/
def PhTransceiveNamedPipe (os : OS) (PipeHandle : HANDLE) (InputBuffer : List Nat)
    (InputBufferLength OutputBufferLength : Nat) : M NTSTATUS := do
  let r ← call os (.NtFsControlFile PipeHandle FSCTL_PIPE_TRANSCEIVE (.bytes InputBuffer)
    InputBufferLength OutputBufferLength)
  let mut status := r.status
  let mut isb := r.isb
  if status = STATUS_PENDING then
    let w ← call os (.NtWaitForSingleObject PipeHandle false none)
    status := w.status
    isb := w.isb
    if NT_SUCCESS status then
      status := isb.Status
  return status

/-- `PhWaitForNamedPipe`.  The phlib helper `PhTimeoutFromMilliseconds` is defined outside this
file and is taken as a parameter: the timeout value it leaves for a number of milliseconds. -/
def PhWaitForNamedPipe (os : OS) (PhTimeoutFromMilliseconds : Nat → LARGE_INTEGER)
    (PipeName : List Nat) (Timeout : Nat) : M NTSTATUS := do
  let d ← call os (.NtOpenFile DEVICE_NAMED_PIPE 0 false)
  let mut status := d.status
  let fileSystemHandle := d.handle
  if !NT_SUCCESS status then
    return status
  let pipeName := PhInitializeStringRefLongHint PipeName
  let waitForBufferLength :=
    toULONG (FIELD_OFFSET_FILE_PIPE_WAIT_FOR_BUFFER_Name + toULONG pipeName.Length)
  let a ← call os (.PhAllocate waitForBufferLength)
  let waitForBuffer := a.pointer
  let mut buffer : FILE_PIPE_WAIT_FOR_BUFFER := ⟨⟨0, 0⟩, 0, false, []⟩
  if Timeout ≠ 0 then
    buffer := { buffer with Timeout := PhTimeoutFromMilliseconds Timeout,
                            TimeoutSpecified := true }
  else
    buffer := { buffer with Timeout := ⟨0, MINLONG⟩, -- a very long time
                            TimeoutSpecified := true }
  buffer := { buffer with NameLength := toULONG pipeName.Length,
                          Name := pipeName.Buffer.take (pipeName.Length / 2) }
  let r ← call os (.NtFsControlFile fileSystemHandle FSCTL_PIPE_WAIT (.waitFor buffer)
    waitForBufferLength 0)
  status := r.status
  let _ ← call os (.PhFree waitForBuffer)
  let _ ← call os (.NtClose fileSystemHandle)
  return status

/-- `PhCallNamedPipe`. -/
def PhCallNamedPipe (os : OS) (PhTimeoutFromMilliseconds : Nat → LARGE_INTEGER)
    (PipeName : List Nat) (InputBuffer : List Nat)
    (InputBufferLength OutputBufferLength : Nat) : M NTSTATUS := do
  let mut pipeHandle : HANDLE := 0
  let c ← PhConnectPipe os PipeName
  let mut status := c.1
  pipeHandle := c.2.getD pipeHandle
  if !NT_SUCCESS status then
    let _ ← PhWaitForNamedPipe os PhTimeoutFromMilliseconds PipeName 1000
    let c ← PhConnectPipe os PipeName
    status := c.1
    pipeHandle := c.2.getD pipeHandle
  if NT_SUCCESS status then
    let s ← call os (.NtSetInformationFile pipeHandle FILE_PIPE_MESSAGE_MODE
      FILE_PIPE_QUEUE_OPERATION)
    status := s.status
  if NT_SUCCESS status then
    status ← PhTransceiveNamedPipe os pipeHandle InputBuffer InputBufferLength
      OutputBufferLength
  if pipeHandle ≠ 0 then
    let _ ← call os (.NtFlushBuffersFile pipeHandle)
    let _ ← PhDisconnectNamedPipe os pipeHandle
    let _ ← call os (.NtClose pipeHandle)
  return status

/-- `PhImpersonateClientOfNamedPipe`. -/
def PhImpersonateClientOfNamedPipe (os : OS) (PipeHandle : HANDLE) : M NTSTATUS := do
  let r ← call os (.NtFsControlFile PipeHandle FSCTL_PIPE_IMPERSONATE .null 0 0)
  return r.status

/-- `PhDisableImpersonateNamedPipe`. -/
def PhDisableImpersonateNamedPipe (os : OS) (PipeHandle : HANDLE) : M NTSTATUS := do
  let r ← call os (.NtFsControlFile PipeHandle FSCTL_PIPE_DISABLE_IMPERSONATE .null 0 0)
  return r.status

/-- `PhGetNamedPipeClientComputerName`. -/
def PhGetNamedPipeClientComputerName (os : OS) (PipeHandle : HANDLE)
    (ClientComputerNameLength : Nat) : M NTSTATUS := do
  let r ← call os (.NtFsControlFile PipeHandle FSCTL_PIPE_GET_CONNECTION_ATTRIBUTE
    (.bytes (cString "ClientComputerName")) (sizeofLiteral "ClientComputerName")
    ClientComputerNameLength)
  let mut status := r.status
  let mut isb := r.isb
  if status = STATUS_PENDING then
    let w ← call os (.NtWaitForSingleObject PipeHandle false none)
    status := w.status
    isb := w.isb
    if NT_SUCCESS status then
      status := isb.Status
  return status

/-- `PhGetNamedPipeClientProcessId`.  `ClientProcessId` says whether the out-pointer is
non-null; the result carries the value stored through it. -/
def PhGetNamedPipeClientProcessId (os : OS) (PipeHandle : HANDLE) (ClientProcessId : Bool) :
    M (NTSTATUS × Option HANDLE) := do
  let mut processId : Nat := 0
  let r ← call os (.NtFsControlFile PipeHandle FSCTL_PIPE_GET_CONNECTION_ATTRIBUTE
    (.bytes (cString "ClientProcessId")) (sizeofLiteral "ClientProcessId") 4)
  let mut status := r.status
  let mut isb := r.isb
  processId := toULONG (r.ulong.getD processId)
  if status = STATUS_PENDING then
    let w ← call os (.NtWaitForSingleObject PipeHandle false none)
    status := w.status
    isb := w.isb
    processId := toULONG (w.ulong.getD processId)
    if NT_SUCCESS status then
      status := isb.Status
  let mut out : Option HANDLE := none
  if NT_SUCCESS status then
    if ClientProcessId then
      out := some (UlongToHandle processId)
  return (status, out)

/-- `PhGetNamedPipeClientSessionId`. -/
def PhGetNamedPipeClientSessionId (os : OS) (PipeHandle : HANDLE) (ClientSessionId : Bool) :
    M (NTSTATUS × Option HANDLE) := do
  let mut processId : Nat := 0
  let r ← call os (.NtFsControlFile PipeHandle FSCTL_PIPE_GET_CONNECTION_ATTRIBUTE
    (.bytes (cString "ClientSessionId")) (sizeofLiteral "ClientSessionId") 4)
  let mut status := r.status
  let mut isb := r.isb
  processId := toULONG (r.ulong.getD processId)
  if status = STATUS_PENDING then
    let w ← call os (.NtWaitForSingleObject PipeHandle false none)
    status := w.status
    isb := w.isb
    processId := toULONG (w.ulong.getD processId)
    if NT_SUCCESS status then
      status := isb.Status
  let mut out : Option HANDLE := none
  if NT_SUCCESS status then
    if ClientSessionId then
      out := some (UlongToHandle processId)
  return (status, out)

/-- `PhGetNamedPipeServerProcessId`. -/
def PhGetNamedPipeServerProcessId (os : OS) (PipeHandle : HANDLE) (ServerProcessId : Bool) :
    M (NTSTATUS × Option HANDLE) := do
  let mut processId : Nat := 0
  let r ← call os (.NtFsControlFile PipeHandle FSCTL_PIPE_GET_PIPE_ATTRIBUTE
    (.bytes (cString "ServerProcessId")) (sizeofLiteral "ServerProcessId") 4)
  let mut status := r.status
  let mut isb := r.isb
  processId := toULONG (r.ulong.getD processId)
  if status = STATUS_PENDING then
    let w ← call os (.NtWaitForSingleObject PipeHandle false none)
    status := w.status
    isb := w.isb
    processId := toULONG (w.ulong.getD processId)
    if NT_SUCCESS status then
      status := isb.Status
  let mut out : Option HANDLE := none
  if NT_SUCCESS status then
    if ServerProcessId then
      out := some (UlongToHandle processId)
  return (status, out)

/-- `PhGetNamedPipeServerSessionId`. -/
def PhGetNamedPipeServerSessionId (os : OS) (PipeHandle : HANDLE) (ServerSessionId : Bool) :
    M (NTSTATUS × Option HANDLE) := do
  let mut processId : Nat := 0
  let r ← call os (.NtFsControlFile PipeHandle FSCTL_PIPE_GET_PIPE_ATTRIBUTE
    (.bytes (cString "ServerSessionId")) (sizeofLiteral "ServerSessionId") 4)
  let mut status := r.status
  let mut isb := r.isb
  processId := toULONG (r.ulong.getD processId)
  if status = STATUS_PENDING then
    let w ← call os (.NtWaitForSingleObject PipeHandle false none)
    status := w.status
    isb := w.isb
    processId := toULONG (w.ulong.getD processId)
    if NT_SUCCESS status then
      status := isb.Status
  let mut out : Option HANDLE := none
  if NT_SUCCESS status then
    if ServerSessionId then
      out := some (UlongToHandle processId)
  return (status, out)

/-! ## Vocabulary of the statements -/

/-- The wait a two-phase control operation performs on its pipe handle: not alertable, no
timeout. -/
def waitOn (PipeHandle : HANDLE) : Event := .NtWaitForSingleObject PipeHandle false none

/-- The two-phase contract of a control operation that starts from the history `tr`, issues
`request` and ends with status `status` and history `final`.  `r` is the response to the request
and `w` the response to the wait that follows it. -/
def TwoPhase (os : OS) (tr : Trace) (PipeHandle : HANDLE) (request : Event)
    (status : NTSTATUS) (final : Trace) : Prop :=
  let r := os (tr ++ [request])
  let w := os (tr ++ [request, waitOn PipeHandle])
  (r.status ≠ STATUS_PENDING → status = r.status ∧ final = tr ++ [request]) ∧
  (r.status = STATUS_PENDING →
    final = tr ++ [request, waitOn PipeHandle] ∧
    (NT_SUCCESS w.status = true → status = w.isb.Status) ∧
    (NT_SUCCESS w.status = false → status = w.status))

/-- The outcome of issuing `req` from the history `tr` and then waiting on `h` if, and only
if, the request is pending: the status held afterwards and the history reached. -/
def twoPhaseRun (os : OS) (tr : Trace) (h : HANDLE) (req : Event) : NTSTATUS × Trace :=
  if (os (tr ++ [req])).status = STATUS_PENDING then
    (if NT_SUCCESS (os (tr ++ [req, waitOn h])).status = true
      then (os (tr ++ [req, waitOn h])).isb.Status
      else (os (tr ++ [req, waitOn h])).status, tr ++ [req, waitOn h])
  else ((os (tr ++ [req])).status, tr ++ [req])

/-- The 32-bit reply value an identifier query holds after the pending/wait step: the local
starts at `0` and is overwritten by whatever the request, then the wait, store. -/
def replyValue (os : OS) (tr : Trace) (h : HANDLE) (req : Event) : Nat :=
  if (os (tr ++ [req])).status = STATUS_PENDING then
    toULONG ((os (tr ++ [req, waitOn h])).ulong.getD (toULONG ((os (tr ++ [req])).ulong.getD 0)))
  else toULONG ((os (tr ++ [req])).ulong.getD 0)

/-- The outcome of an identifier query that issues `req`: the two-phase status and history, and
the output stored on success through a non-null out-pointer. -/
def idQueryRun (os : OS) (tr : Trace) (h : HANDLE) (req : Event) (out : Bool) :
    (NTSTATUS × Option HANDLE) × Trace :=
  (((twoPhaseRun os tr h req).1,
    if NT_SUCCESS (twoPhaseRun os tr h req).1 = true ∧ out = true
      then some (replyValue os tr h req) else none),
   (twoPhaseRun os tr h req).2)

/-- The response a two-phase operation reads after the pending/wait step: the response to the
wait when the request was pending, the response to the request otherwise. -/
def observed (os : OS) (tr : Trace) (h : HANDLE) (req : Event) : Resp :=
  if (os (tr ++ [req])).status = STATUS_PENDING then os (tr ++ [req, waitOn h])
  else os (tr ++ [req])

/-- The peek request `PhPeekNamedPipe` issues for a caller buffer of `Length` bytes. -/
def peekRequest (PipeHandle : HANDLE) (Length : Nat) : Event :=
  .NtFsControlFile PipeHandle FSCTL_PIPE_PEEK .null 0
    (toULONG (FIELD_OFFSET_FILE_PIPE_PEEK_BUFFER_Data + Length))

/-- The history at which `PhPeekNamedPipe` issues its request: the reply buffer is allocated. -/
def peekStart (tr : Trace) (Length : Nat) : Trace :=
  tr ++ [.PhAllocate (toULONG (FIELD_OFFSET_FILE_PIPE_PEEK_BUFFER_Data + Length))]

/-- The outcome of `PhPeekNamedPipe` in terms of the two-phase outcome of its request. -/
def peekRun (os : OS) (tr : Trace) (h : HANDLE) (B : Bool) (L : Nat) (nR nA nL : Bool) :
    (NTSTATUS × PeekOutputs) × Trace :=
  let tp := twoPhaseRun os (peekStart tr L) h (peekRequest h L)
  let obs := observed os (peekStart tr L) h (peekRequest h L)
  let status := if tp.1 = STATUS_BUFFER_OVERFLOW then STATUS_SUCCESS else tp.1
  ((status,
    if NT_SUCCESS status = true then PhPeekNamedPipe.store B nR nA nL obs.isb obs.peek
    else ⟨none, none, none, none, none⟩),
   tp.2 ++ [.PhFree (os (peekStart tr L)).pointer])

/-- The outcome of `PhCreatePipeEx` in terms of the responses of the operating system: `pre` is
the history at which the pipe file is created and `release` the calls that release the ACL and
the directory handle. -/
def createPipeExRun (os : OS) (tr : Trace) (inh : Bool) (SD : Nat) :
    (NTSTATUS × Option HANDLE × Option HANDLE) × Trace :=
  let open0 := Event.NtOpenFile DEVICE_NAMED_PIPE 0 false
  let d := os (tr ++ [open0])
  if NT_SUCCESS d.status = true then
    let a := os (tr ++ [open0, .RtlDefaultNpAcl])
    let pre : Trace := if SD ≠ 0 then tr ++ [open0] else tr ++ [open0, .RtlDefaultNpAcl]
    let pipeAcl : Nat := if SD ≠ 0 then 0 else a.pointer
    let sd : SecurityDescriptorArg :=
      if SD ≠ 0 then .caller SD
      else if NT_SUCCESS a.status = true then .defaultAcl a.pointer else .absent
    let create := Event.NtCreateNamedPipeFile [] d.handle inh sd 120000
    let c := os (pre ++ [create])
    let release : Trace :=
      (if pipeAcl ≠ 0 then [.RtlFreeHeap pipeAcl] else []) ++ [.NtClose d.handle]
    if NT_SUCCESS c.status = true then
      let openw := Event.NtOpenFile [] c.handle inh
      let w := os (pre ++ [create, openw])
      ((w.status, if NT_SUCCESS w.status = true then some c.handle else none,
          if NT_SUCCESS w.status = true then some w.handle else none),
        pre ++ [create, openw] ++ release)
    else ((c.status, none, none), pre ++ [create] ++ release)
  else ((d.status, none, none), tr ++ [open0])

/-- The outcome of `PhCreateNamedPipe` in terms of the responses of the operating system. -/
def createNamedPipeRun (os : OS) (tr : Trace) (PipeName : List Nat) :
    (NTSTATUS × Option HANDLE) × Trace :=
  let a := os (tr ++ [.RtlDefaultNpAcl])
  let sd : SecurityDescriptorArg :=
    if NT_SUCCESS a.status = true then .defaultAcl a.pointer else .absent
  let create := Event.NtCreateNamedPipeFile (DEVICE_NAMED_PIPE ++ PipeName) 0 false sd 1000
  let c := os (tr ++ [.RtlDefaultNpAcl, create])
  ((c.status, if NT_SUCCESS c.status = true then some c.handle else none),
    tr ++ [.RtlDefaultNpAcl, create] ++
      (if a.pointer ≠ 0 then [.RtlFreeHeap a.pointer] else []))

/-- Is the call a release of heap memory through `RtlFreeHeap`? -/
def isFree : Event → Bool
  | .RtlFreeHeap _ => true
  | _ => false

/-- The connect attempt `PhConnectPipe` issues for a pipe name. -/
def connectRequest (PipeName : List Nat) : Event :=
  .NtCreateFile (DEVICE_NAMED_PIPE ++ PipeName)

/-- The wait descriptor `PhWaitForNamedPipe` builds for a pipe name and a timeout. -/
def waitForBuffer (PhTimeoutFromMilliseconds : Nat → LARGE_INTEGER) (PipeName : List Nat)
    (Timeout : Nat) : FILE_PIPE_WAIT_FOR_BUFFER :=
  { Timeout := if Timeout ≠ 0 then PhTimeoutFromMilliseconds Timeout else ⟨0, MINLONG⟩
    NameLength := toULONG (2 * PipeName.length)
    TimeoutSpecified := true
    Name := PipeName.take (2 * PipeName.length / 2) }

/-- The length of the wait descriptor `PhWaitForNamedPipe` allocates for a pipe name. -/
def waitForBufferLength (PipeName : List Nat) : Nat :=
  toULONG (FIELD_OFFSET_FILE_PIPE_WAIT_FOR_BUFFER_Name + toULONG (2 * PipeName.length))

/-- The outcome of `PhWaitForNamedPipe` in terms of the responses of the operating system. -/
def waitForRun (os : OS) (tmo : Nat → LARGE_INTEGER) (tr : Trace) (PipeName : List Nat)
    (Timeout : Nat) : NTSTATUS × Trace :=
  let open0 := Event.NtOpenFile DEVICE_NAMED_PIPE 0 false
  let d := os (tr ++ [open0])
  if NT_SUCCESS d.status = true then
    let alloc := Event.PhAllocate (waitForBufferLength PipeName)
    let req := Event.NtFsControlFile d.handle FSCTL_PIPE_WAIT
      (.waitFor (waitForBuffer tmo PipeName Timeout)) (waitForBufferLength PipeName) 0
    ((os (tr ++ [open0, alloc, req])).status,
      tr ++ [open0, alloc, req, .PhFree (os (tr ++ [open0, alloc])).pointer, .NtClose d.handle])
  else (d.status, tr ++ [open0])

/-- The calls `PhCallNamedPipe` issues to release the pipe handle `h` from the history `t`:
flush, disconnect (with its wait when pending), close. -/
def releasePipe (os : OS) (t : Trace) (h : HANDLE) : Trace :=
  (twoPhaseRun os (t ++ [.NtFlushBuffersFile h]) h
    (.NtFsControlFile h FSCTL_PIPE_DISCONNECT .null 0 0)).2 ++ [.NtClose h]

/-- The outcome of `PhCallNamedPipe` from the history `tc` reached by a successful connect that
stored the handle `h`. -/
def callAfterConnect (os : OS) (tc : Trace) (h : HANDLE) (inp : List Nat) (inLen outLen : Nat) :
    NTSTATUS × Trace :=
  let set := Event.NtSetInformationFile h FILE_PIPE_MESSAGE_MODE FILE_PIPE_QUEUE_OPERATION
  let s := os (tc ++ [set])
  let tx : NTSTATUS × Trace :=
    if NT_SUCCESS s.status = true then
      twoPhaseRun os (tc ++ [set]) h (.NtFsControlFile h FSCTL_PIPE_TRANSCEIVE (.bytes inp)
        inLen outLen)
    else (s.status, tc ++ [set])
  (tx.1, if h ≠ 0 then releasePipe os tx.2 h else tx.2)

/-- The outcome of `PhCallNamedPipe` in terms of the responses of the operating system. -/
def callRun (os : OS) (tmo : Nat → LARGE_INTEGER) (tr : Trace) (PipeName : List Nat)
    (inp : List Nat) (inLen outLen : Nat) : NTSTATUS × Trace :=
  let r1 := os (tr ++ [connectRequest PipeName])
  if NT_SUCCESS r1.status = true then
    callAfterConnect os (tr ++ [connectRequest PipeName]) r1.handle inp inLen outLen
  else
    let t1 := (waitForRun os tmo (tr ++ [connectRequest PipeName]) PipeName 1000).2
    let r2 := os (t1 ++ [connectRequest PipeName])
    if NT_SUCCESS r2.status = true then
      callAfterConnect os (t1 ++ [connectRequest PipeName]) r2.handle inp inLen outLen
    else (r2.status, t1 ++ [connectRequest PipeName])

/-- Is the call a connect attempt (`NtCreateFile`)? -/
def isConnect : Event → Bool
  | .NtCreateFile _ => true
  | _ => false

/-- Is the call one by which `PhWaitForNamedPipe` opens the pipe-device directory or requests
the wait for an instance? -/
def isWaitForPipe : Event → Bool
  | .NtOpenFile _ _ _ => true
  | .NtFsControlFile _ FSCTL_PIPE_WAIT _ _ _ => true
  | _ => false

/-- Is the call a flush, a disconnect request or a close? -/
def isRelease : Event → Bool
  | .NtFlushBuffersFile _ => true
  | .NtFsControlFile _ FSCTL_PIPE_DISCONNECT _ _ _ => true
  | .NtClose _ => true
  | _ => false

/-- The number of connect attempts in a list of calls. -/
def connectAttempts (l : Trace) : Nat := l.countP isConnect

/-- The set-information request of `PhCallNamedPipe` on the handle `h`. -/
def setModeRequest (h : HANDLE) : Event :=
  .NtSetInformationFile h FILE_PIPE_MESSAGE_MODE FILE_PIPE_QUEUE_OPERATION

/-- The transceive request of `PhCallNamedPipe` on the handle `h`. -/
def transceiveRequest (h : HANDLE) (inp : List Nat) (inLen outLen : Nat) : Event :=
  .NtFsControlFile h FSCTL_PIPE_TRANSCEIVE (.bytes inp) inLen outLen

/-- The disconnect request on the handle `h`. -/
def disconnectRequest (h : HANDLE) : Event :=
  .NtFsControlFile h FSCTL_PIPE_DISCONNECT .null 0 0

/-- The calls of `PhCallNamedPipe` between a successful connect and the release of the handle
`h`: the set-information request, then the transceive request when the former succeeded, then
the wait when the latter was pending. -/
def IsExchange (h : HANDLE) (inp : List Nat) (inLen outLen : Nat) (mid : Trace) : Prop :=
  mid = [setModeRequest h] ∨
  mid = [setModeRequest h, transceiveRequest h inp inLen outLen] ∨
  mid = [setModeRequest h, transceiveRequest h inp inLen outLen, waitOn h]

/-- The calls of one `PhDisconnectNamedPipe` on the handle `h`: the request, then the wait when
it was pending. -/
def IsDisconnect (h : HANDLE) (D : Trace) : Prop :=
  D = [disconnectRequest h] ∨ D = [disconnectRequest h, waitOn h]

/-- The calls of one `PhWaitForNamedPipe` for `PipeName` with `Timeout`, from the history `t`:
the directory open alone when it fails, otherwise the open, the allocation of the descriptor,
the wait request, the release of the descriptor and the close of the directory handle. -/
def IsWaitForPipe (os : OS) (tmo : Nat → LARGE_INTEGER) (t : Trace) (PipeName : List Nat)
    (Timeout : Nat) (W : Trace) : Prop :=
  let open0 := Event.NtOpenFile DEVICE_NAMED_PIPE 0 false
  let alloc := Event.PhAllocate (waitForBufferLength PipeName)
  let req := Event.NtFsControlFile (os (t ++ [open0])).handle FSCTL_PIPE_WAIT
    (.waitFor (waitForBuffer tmo PipeName Timeout)) (waitForBufferLength PipeName) 0
  W = [open0] ∨
  W = [open0, alloc, req, .PhFree (os (t ++ [open0, alloc])).pointer,
    .NtClose (os (t ++ [open0])).handle]

/-- Two operating systems that store the same data and may differ in the statuses they report. -/
def SameData (os os' : OS) : Prop :=
  ∀ t, (os' t).handle = (os t).handle ∧ (os' t).pointer = (os t).pointer ∧
    (os' t).isb.Information = (os t).isb.Information ∧ (os' t).ulong = (os t).ulong ∧
    (os' t).peek = (os t).peek

/-- The contract of an identifier query that starts from the history `tr`, issues `request`
and ends with the result `res`: the two-phase contract for the status and the history; on
success through a non-null out-pointer the stored handle is the 32-bit reply value, its upper
bits zero; on failure nothing is stored. -/
def IdQuery (os : OS) (tr : Trace) (PipeHandle : HANDLE) (request : Event) (out : Bool)
    (res : (NTSTATUS × Option HANDLE) × Trace) : Prop :=
  TwoPhase os tr PipeHandle request res.1.1 res.2 ∧
  (NT_SUCCESS res.1.1 = true → out = true →
    res.1.2 = some (replyValue os tr PipeHandle request)) ∧
  (NT_SUCCESS res.1.1 = false → res.1.2 = none) ∧
  replyValue os tr PipeHandle request < 2 ^ 32

/-! ## Concrete operating systems -/

/-- A response with the given status and nothing else of interest. -/
def Resp.ofStatus (s : NTSTATUS) : Resp :=
  { status := s, handle := 0, pointer := 0, isb := ⟨0, 0⟩, ulong := none,
    peek := ⟨0, 0, 0, 0, []⟩ }

/-- An operating system under which the pipe-device directory opens (handle `16`), the default
ACL provider succeeds (pointer `4096`), the pipe file is created (handle `20`), and opening the
write handle relative to the pipe file is denied. -/
def osWriteOpenFails : OS := fun tr =>
  match tr.getLast? with
  | some (.NtOpenFile _ root _) =>
      if root = 0 then { Resp.ofStatus STATUS_SUCCESS with handle := 16 }
      else Resp.ofStatus STATUS_ACCESS_DENIED
  | some (.NtCreateNamedPipeFile _ _ _ _ _) => { Resp.ofStatus STATUS_SUCCESS with handle := 20 }
  | some .RtlDefaultNpAcl => { Resp.ofStatus STATUS_SUCCESS with pointer := 4096 }
  | _ => Resp.ofStatus STATUS_SUCCESS

/-- An operating system under which every filesystem-control request is pending and every
wait succeeds, the request then completing with `STATUS_SUCCESS`. -/
def osPendingThenDone : OS := fun tr =>
  match tr.getLast? with
  | some (.NtFsControlFile _ _ _ _ _) => Resp.ofStatus STATUS_PENDING
  | _ => Resp.ofStatus STATUS_SUCCESS

/-- An operating system under which a peek finds a 10-byte message: the request ends with
`STATUS_BUFFER_OVERFLOW`, reports 20 bytes (the 16-byte header and 4 data bytes) and fills the
reply with the header of the message and its first four bytes. -/
def osPeekMessage : OS := fun tr =>
  match tr.getLast? with
  | some (.NtFsControlFile _ FSCTL_PIPE_PEEK _ _ _) =>
      { Resp.ofStatus STATUS_BUFFER_OVERFLOW with
        isb := ⟨STATUS_BUFFER_OVERFLOW, 20⟩, peek := ⟨3, 10, 1, 10, [1, 2, 3, 4]⟩ }
  | some (.PhAllocate _) => { Resp.ofStatus STATUS_SUCCESS with pointer := 8192 }
  | _ => Resp.ofStatus STATUS_SUCCESS

/-- The operating system `osPeekMessage` with the peek ending in `STATUS_SUCCESS` instead. -/
def osPeekMessageDone : OS := fun tr =>
  match tr.getLast? with
  | some (.NtFsControlFile _ FSCTL_PIPE_PEEK _ _ _) =>
      { Resp.ofStatus STATUS_SUCCESS with
        isb := ⟨STATUS_SUCCESS, 20⟩, peek := ⟨3, 10, 1, 10, [1, 2, 3, 4]⟩ }
  | some (.PhAllocate _) => { Resp.ofStatus STATUS_SUCCESS with pointer := 8192 }
  | _ => Resp.ofStatus STATUS_SUCCESS

/-- An operating system under which a peek succeeds and reports 8 bytes, fewer than the 16-byte
header of the reply. -/
def osShortPeek : OS := fun tr =>
  match tr.getLast? with
  | some (.NtFsControlFile _ FSCTL_PIPE_PEEK _ _ _) =>
      { Resp.ofStatus STATUS_SUCCESS with isb := ⟨STATUS_SUCCESS, 8⟩ }
  | some (.PhAllocate _) => { Resp.ofStatus STATUS_SUCCESS with pointer := 8192 }
  | _ => Resp.ofStatus STATUS_SUCCESS

/-- A timeout conversion for the instances: the negated count of 100 ns ticks, in two halves. -/
def sampleTimeout (ms : Nat) : LARGE_INTEGER :=
  ⟨(2 ^ 64 - ms * 10000) % 2 ^ 32, ((2 ^ 64 - ms * 10000) / 2 ^ 32 : Nat) - 2 ^ 32⟩

/-- An operating system under which no pipe instance listens: every connect attempt fails with
`STATUS_PIPE_NOT_AVAILABLE`; the directory opens (handle `16`) and everything else succeeds. -/
def osNoServer : OS := fun tr =>
  match tr.getLast? with
  | some (.NtCreateFile _) => Resp.ofStatus STATUS_PIPE_NOT_AVAILABLE
  | some (.NtOpenFile _ _ _) => { Resp.ofStatus STATUS_SUCCESS with handle := 16 }
  | some (.PhAllocate _) => { Resp.ofStatus STATUS_SUCCESS with pointer := 8192 }
  | _ => Resp.ofStatus STATUS_SUCCESS

/-- An operating system under which the first connect attempt of a history fails with
`STATUS_PIPE_NOT_AVAILABLE` and later ones succeed (handle `32`); the transceive fails with
`STATUS_ACCESS_DENIED`; the directory opens (handle `16`) and everything else succeeds. -/
def osConnectOnRetry : OS := fun tr =>
  match tr.getLast? with
  | some (.NtCreateFile _) =>
      if tr.countP isConnect = 1 then Resp.ofStatus STATUS_PIPE_NOT_AVAILABLE
      else { Resp.ofStatus STATUS_SUCCESS with handle := 32 }
  | some (.NtOpenFile _ _ _) => { Resp.ofStatus STATUS_SUCCESS with handle := 16 }
  | some (.PhAllocate _) => { Resp.ofStatus STATUS_SUCCESS with pointer := 8192 }
  | some (.NtFsControlFile _ FSCTL_PIPE_TRANSCEIVE _ _ _) => Resp.ofStatus STATUS_ACCESS_DENIED
  | _ => Resp.ofStatus STATUS_SUCCESS

/-! ## Running computations -/

@[simp] theorem call_run (os : OS) (e : Event) (tr : Trace) :
    (call os e).run tr = (os (tr ++ [e]), tr ++ [e]) := rfl

@[simp] theorem M_ite_run {α : Type} (c : Prop) [Decidable c] (x y : M α) (tr : Trace) :
    (if c then x else y).run tr = if c then x.run tr else y.run tr := by
  split <;> rfl

theorem twoPhaseRun_spec (os : OS) (tr : Trace) (h : HANDLE) (req : Event) :
    TwoPhase os tr h req (twoPhaseRun os tr h req).1 (twoPhaseRun os tr h req).2 := by
  unfold TwoPhase twoPhaseRun
  refine ⟨fun hne => ?_, fun heq => ?_⟩
  · simp [hne]
  · simp only [heq, if_true]
    refine ⟨trivial, fun hs => ?_, fun hf => ?_⟩
    · simp [hs]
    · simp [hf]

theorem UlongToHandle_toULONG (n : Nat) : UlongToHandle (toULONG n) = toULONG n := by
  show @Eq Nat (((n % 2 ^ 32) % 2 ^ 32) % 2 ^ 64) (n % 2 ^ 32)
  omega

theorem toULONG_lt (n : Nat) : toULONG n < 2 ^ 32 := by
  unfold toULONG
  omega

theorem PhListenNamedPipe_run (os : OS) (h : HANDLE) (tr : Trace) :
    (PhListenNamedPipe os h).run tr =
      twoPhaseRun os tr h (.NtFsControlFile h FSCTL_PIPE_LISTEN .null 0 0) := by
  simp only [PhListenNamedPipe, StateT.run_bind, StateT.run_pure, Id.bind_eq, Id.pure_eq,
    call_run, M_ite_run, pure_bind, bind_pure, waitOn, List.append_assoc, List.singleton_append,
    twoPhaseRun]
  split_ifs <;> rfl

theorem PhDisconnectNamedPipe_run (os : OS) (h : HANDLE) (tr : Trace) :
    (PhDisconnectNamedPipe os h).run tr =
      twoPhaseRun os tr h (.NtFsControlFile h FSCTL_PIPE_DISCONNECT .null 0 0) := by
  simp only [PhDisconnectNamedPipe, StateT.run_bind, StateT.run_pure, Id.bind_eq, Id.pure_eq,
    call_run, M_ite_run, pure_bind, bind_pure, waitOn, List.append_assoc, List.singleton_append,
    twoPhaseRun]
  split_ifs <;> rfl

theorem PhTransceiveNamedPipe_run (os : OS) (h : HANDLE) (inp : List Nat) (inLen outLen : Nat)
    (tr : Trace) :
    (PhTransceiveNamedPipe os h inp inLen outLen).run tr =
      twoPhaseRun os tr h
        (.NtFsControlFile h FSCTL_PIPE_TRANSCEIVE (.bytes inp) inLen outLen) := by
  simp only [PhTransceiveNamedPipe, StateT.run_bind, StateT.run_pure, Id.bind_eq, Id.pure_eq,
    call_run, M_ite_run, pure_bind, bind_pure, waitOn, List.append_assoc, List.singleton_append,
    twoPhaseRun]
  split_ifs <;> rfl

theorem PhGetNamedPipeClientComputerName_run (os : OS) (h : HANDLE) (len : Nat) (tr : Trace) :
    (PhGetNamedPipeClientComputerName os h len).run tr =
      twoPhaseRun os tr h (.NtFsControlFile h FSCTL_PIPE_GET_CONNECTION_ATTRIBUTE
        (.bytes (cString "ClientComputerName")) (sizeofLiteral "ClientComputerName") len) := by
  simp only [PhGetNamedPipeClientComputerName, StateT.run_bind, StateT.run_pure, Id.bind_eq,
    Id.pure_eq, call_run, M_ite_run, pure_bind, bind_pure, waitOn, List.append_assoc,
    List.singleton_append, twoPhaseRun]
  split_ifs <;> rfl

theorem PhGetNamedPipeClientProcessId_run (os : OS) (h : HANDLE) (out : Bool) (tr : Trace) :
    (PhGetNamedPipeClientProcessId os h out).run tr =
      idQueryRun os tr h (.NtFsControlFile h FSCTL_PIPE_GET_CONNECTION_ATTRIBUTE
        (.bytes (cString "ClientProcessId")) (sizeofLiteral "ClientProcessId") 4) out := by
  simp only [PhGetNamedPipeClientProcessId, StateT.run_bind, StateT.run_pure, Id.bind_eq,
    Id.pure_eq, call_run, M_ite_run, pure_bind, bind_pure, waitOn, List.append_assoc,
    List.singleton_append, twoPhaseRun, idQueryRun, replyValue, UlongToHandle_toULONG]
  split_ifs <;> simp_all

theorem PhGetNamedPipeClientSessionId_run (os : OS) (h : HANDLE) (out : Bool) (tr : Trace) :
    (PhGetNamedPipeClientSessionId os h out).run tr =
      idQueryRun os tr h (.NtFsControlFile h FSCTL_PIPE_GET_CONNECTION_ATTRIBUTE
        (.bytes (cString "ClientSessionId")) (sizeofLiteral "ClientSessionId") 4) out := by
  simp only [PhGetNamedPipeClientSessionId, StateT.run_bind, StateT.run_pure, Id.bind_eq,
    Id.pure_eq, call_run, M_ite_run, pure_bind, bind_pure, waitOn, List.append_assoc,
    List.singleton_append, twoPhaseRun, idQueryRun, replyValue, UlongToHandle_toULONG]
  split_ifs <;> simp_all

theorem PhGetNamedPipeServerProcessId_run (os : OS) (h : HANDLE) (out : Bool) (tr : Trace) :
    (PhGetNamedPipeServerProcessId os h out).run tr =
      idQueryRun os tr h (.NtFsControlFile h FSCTL_PIPE_GET_PIPE_ATTRIBUTE
        (.bytes (cString "ServerProcessId")) (sizeofLiteral "ServerProcessId") 4) out := by
  simp only [PhGetNamedPipeServerProcessId, StateT.run_bind, StateT.run_pure, Id.bind_eq,
    Id.pure_eq, call_run, M_ite_run, pure_bind, bind_pure, waitOn, List.append_assoc,
    List.singleton_append, twoPhaseRun, idQueryRun, replyValue, UlongToHandle_toULONG]
  split_ifs <;> simp_all

theorem PhGetNamedPipeServerSessionId_run (os : OS) (h : HANDLE) (out : Bool) (tr : Trace) :
    (PhGetNamedPipeServerSessionId os h out).run tr =
      idQueryRun os tr h (.NtFsControlFile h FSCTL_PIPE_GET_PIPE_ATTRIBUTE
        (.bytes (cString "ServerSessionId")) (sizeofLiteral "ServerSessionId") 4) out := by
  simp only [PhGetNamedPipeServerSessionId, StateT.run_bind, StateT.run_pure, Id.bind_eq,
    Id.pure_eq, call_run, M_ite_run, pure_bind, bind_pure, waitOn, List.append_assoc,
    List.singleton_append, twoPhaseRun, idQueryRun, replyValue, UlongToHandle_toULONG]
  split_ifs <;> simp_all

theorem idQueryRun_spec (os : OS) (tr : Trace) (h : HANDLE) (req : Event) (out : Bool) :
    IdQuery os tr h req out (idQueryRun os tr h req out) := by
  refine ⟨twoPhaseRun_spec os tr h req, fun hs ho => ?_, fun hf => ?_, ?_⟩
  · simp only [idQueryRun] at hs ⊢
    simp [hs, ho]
  · simp only [idQueryRun] at hf ⊢
    simp [hf]
  · unfold replyValue
    split_ifs <;> exact toULONG_lt _

theorem PhImpersonateClientOfNamedPipe_run (os : OS) (h : HANDLE) (tr : Trace) :
    (PhImpersonateClientOfNamedPipe os h).run tr =
      ((os (tr ++ [.NtFsControlFile h FSCTL_PIPE_IMPERSONATE .null 0 0])).status,
        tr ++ [.NtFsControlFile h FSCTL_PIPE_IMPERSONATE .null 0 0]) := by
  simp only [PhImpersonateClientOfNamedPipe, StateT.run_bind, StateT.run_pure, Id.bind_eq,
    Id.pure_eq, call_run]

theorem PhDisableImpersonateNamedPipe_run (os : OS) (h : HANDLE) (tr : Trace) :
    (PhDisableImpersonateNamedPipe os h).run tr =
      ((os (tr ++ [.NtFsControlFile h FSCTL_PIPE_DISABLE_IMPERSONATE .null 0 0])).status,
        tr ++ [.NtFsControlFile h FSCTL_PIPE_DISABLE_IMPERSONATE .null 0 0]) := by
  simp only [PhDisableImpersonateNamedPipe, StateT.run_bind, StateT.run_pure, Id.bind_eq,
    Id.pure_eq, call_run]

theorem PhPeekNamedPipe_run (os : OS) (h : HANDLE) (B : Bool) (L : Nat) (nR nA nL : Bool)
    (tr : Trace) :
    (PhPeekNamedPipe os h B L nR nA nL).run tr = peekRun os tr h B L nR nA nL := by
  simp only [PhPeekNamedPipe, StateT.run_bind, StateT.run_pure, Id.bind_eq, Id.pure_eq,
    call_run, M_ite_run, pure_bind, bind_pure, waitOn, List.append_assoc,
    List.singleton_append, twoPhaseRun, peekRun, peekStart, peekRequest, observed]
  split_ifs <;> first | (with_reducible rfl) | simp_all

theorem PhPeekNamedPipe_store_congr (B nR nA nL : Bool) (isb isb' : IO_STATUS_BLOCK)
    (reply : FILE_PIPE_PEEK_BUFFER) (hinfo : isb'.Information = isb.Information) :
    PhPeekNamedPipe.store B nR nA nL isb' reply = PhPeekNamedPipe.store B nR nA nL isb reply := by
  unfold PhPeekNamedPipe.store
  rw [hinfo]

theorem twoPhaseRun_trace_congr (os os' : OS) (tr : Trace) (h : HANDLE) (req : Event)
    (hpend : (os' (tr ++ [req])).status = STATUS_PENDING ↔
      (os (tr ++ [req])).status = STATUS_PENDING) :
    (twoPhaseRun os' tr h req).2 = (twoPhaseRun os tr h req).2 := by
  unfold twoPhaseRun
  by_cases hp : (os (tr ++ [req])).status = STATUS_PENDING
  · rw [if_pos hp, if_pos (hpend.2 hp)]
  · rw [if_neg hp, if_neg (fun hc => hp (hpend.1 hc))]

theorem observed_congr (os os' : OS) (tr : Trace) (h : HANDLE) (req : Event)
    (hdata : SameData os os')
    (hpend : (os' (tr ++ [req])).status = STATUS_PENDING ↔
      (os (tr ++ [req])).status = STATUS_PENDING) :
    (observed os' tr h req).isb.Information = (observed os tr h req).isb.Information ∧
    (observed os' tr h req).peek = (observed os tr h req).peek := by
  unfold observed
  by_cases hp : (os (tr ++ [req])).status = STATUS_PENDING
  · rw [if_pos hp, if_pos (hpend.2 hp)]
    exact ⟨(hdata _).2.2.1, (hdata _).2.2.2.2⟩
  · rw [if_neg hp, if_neg (fun hc => hp (hpend.1 hc))]
    exact ⟨(hdata _).2.2.1, (hdata _).2.2.2.2⟩

theorem STATUS_SUCCESS_ne_overflow : STATUS_SUCCESS ≠ STATUS_BUFFER_OVERFLOW := by
  unfold STATUS_SUCCESS STATUS_BUFFER_OVERFLOW
  norm_num

theorem NT_SUCCESS_STATUS_SUCCESS : NT_SUCCESS STATUS_SUCCESS = true := by
  unfold NT_SUCCESS STATUS_SUCCESS
  simp

theorem peekRun_success (os : OS) (tr : Trace) (h : HANDLE) (B : Bool) (L : Nat)
    (nR nA nL : Bool) (hs : NT_SUCCESS (peekRun os tr h B L nR nA nL).1.1 = true) :
    (peekRun os tr h B L nR nA nL).1.2 =
      PhPeekNamedPipe.store B nR nA nL (observed os (peekStart tr L) h (peekRequest h L)).isb
        (observed os (peekStart tr L) h (peekRequest h L)).peek := by
  simp only [peekRun] at hs ⊢
  rw [if_pos hs]

theorem bytesRead_int (info : Nat) :
    ((toULONG (subULONG_PTR info FIELD_OFFSET_FILE_PIPE_PEEK_BUFFER_Data) : Nat) : Int) =
      ((info : Int) - (FIELD_OFFSET_FILE_PIPE_PEEK_BUFFER_Data : Nat)) % 2 ^ 32 := by
  unfold toULONG subULONG_PTR FIELD_OFFSET_FILE_PIPE_PEEK_BUFFER_Data
  omega

theorem bytesRead_exact (info : Nat) (hlo : FIELD_OFFSET_FILE_PIPE_PEEK_BUFFER_Data ≤ info)
    (hhi : info < 2 ^ 32 + FIELD_OFFSET_FILE_PIPE_PEEK_BUFFER_Data) :
    toULONG (subULONG_PTR info FIELD_OFFSET_FILE_PIPE_PEEK_BUFFER_Data) =
      info - FIELD_OFFSET_FILE_PIPE_PEEK_BUFFER_Data := by
  unfold toULONG subULONG_PTR FIELD_OFFSET_FILE_PIPE_PEEK_BUFFER_Data at *
  omega

theorem subULONG_int (a b : Nat) :
    ((subULONG a b : Nat) : Int) = ((a : Int) - (b : Int)) % 2 ^ 32 := by
  unfold subULONG
  omega

theorem subULONG_exact (a b : Nat) (hle : b ≤ a) (ha : a < 2 ^ 32) : subULONG a b = a - b := by
  unfold subULONG
  omega

theorem subULONG_lt (a b : Nat) : subULONG a b < 2 ^ 32 := by
  unfold subULONG
  omega

set_option maxHeartbeats 1000000 in
theorem PhCreatePipeEx_run (os : OS) (inh : Bool) (SD : Nat) (tr : Trace) :
    (PhCreatePipeEx os inh SD).run tr = createPipeExRun os tr inh SD := by
  by_cases hd : NT_SUCCESS (os (tr ++ [Event.NtOpenFile DEVICE_NAMED_PIPE 0 false])).status = true
  · by_cases hSD : SD = 0
    · subst hSD
      simp only [PhCreatePipeEx, StateT.run_bind, StateT.run_pure, Id.bind_eq, Id.pure_eq,
        call_run, M_ite_run, pure_bind, bind_pure, List.append_assoc,
        List.singleton_append, createPipeExRun, hd, Bool.not_true, Bool.false_eq_true, if_false,
        if_true, ne_eq, not_true_eq_false, List.cons_append, List.nil_append]
      split_ifs <;> simp_all
    · simp only [PhCreatePipeEx, StateT.run_bind, StateT.run_pure, Id.bind_eq, Id.pure_eq,
        call_run, M_ite_run, pure_bind, bind_pure, List.append_assoc,
        List.singleton_append, createPipeExRun, hd, hSD, Bool.not_true, Bool.false_eq_true,
        if_false, if_true, ne_eq, not_true_eq_false, not_false_eq_true, List.cons_append,
        List.nil_append]
      split_ifs <;> simp_all
  · simp only [PhCreatePipeEx, StateT.run_bind, StateT.run_pure, Id.bind_eq, Id.pure_eq,
      call_run, M_ite_run, pure_bind, bind_pure, List.append_assoc,
      List.singleton_append, createPipeExRun, hd, if_false]
    simp [hd]

theorem PhCreateNamedPipe_run (os : OS) (name : List Nat) (tr : Trace) :
    (PhCreateNamedPipe os name).run tr = createNamedPipeRun os tr name := by
  simp only [PhCreateNamedPipe, StateT.run_bind, StateT.run_pure, Id.bind_eq, Id.pure_eq,
    call_run, M_ite_run, pure_bind, bind_pure, List.append_assoc,
    List.singleton_append, createNamedPipeRun, PhConcatStrings2]
  split_ifs <;> first | (with_reducible rfl) | simp_all

theorem PhConnectPipe_run (os : OS) (name : List Nat) (tr : Trace) :
    (PhConnectPipe os name).run tr =
      (((os (tr ++ [connectRequest name])).status,
        if NT_SUCCESS (os (tr ++ [connectRequest name])).status = true
          then some (os (tr ++ [connectRequest name])).handle else none),
       tr ++ [connectRequest name]) := by
  simp only [PhConnectPipe, StateT.run_bind, StateT.run_pure, Id.bind_eq, Id.pure_eq,
    call_run, M_ite_run, pure_bind, bind_pure, connectRequest, PhConcatStrings2]
  split_ifs <;> rfl

theorem PhWaitForNamedPipe_run (os : OS) (tmo : Nat → LARGE_INTEGER) (name : List Nat)
    (Timeout : Nat) (tr : Trace) :
    (PhWaitForNamedPipe os tmo name Timeout).run tr = waitForRun os tmo tr name Timeout := by
  simp only [PhWaitForNamedPipe, StateT.run_bind, StateT.run_pure, Id.bind_eq, Id.pure_eq,
    call_run, M_ite_run, pure_bind, bind_pure, List.append_assoc, List.singleton_append,
    waitForRun, waitForBuffer, waitForBufferLength, PhInitializeStringRefLongHint]
  split_ifs <;> simp_all

set_option maxHeartbeats 1000000 in
theorem PhCallNamedPipe_run (os : OS) (tmo : Nat → LARGE_INTEGER) (name inp : List Nat)
    (inLen outLen : Nat) (tr : Trace) :
    (PhCallNamedPipe os tmo name inp inLen outLen).run tr =
      callRun os tmo tr name inp inLen outLen := by
  by_cases h1 : NT_SUCCESS (os (tr ++ [connectRequest name])).status = true
  · simp only [PhCallNamedPipe, StateT.run_bind, StateT.run_pure, Id.bind_eq, Id.pure_eq,
      call_run, M_ite_run, pure_bind, bind_pure, PhConnectPipe_run, PhWaitForNamedPipe_run,
      PhTransceiveNamedPipe_run, PhDisconnectNamedPipe_run, h1, Bool.not_true,
      Bool.false_eq_true, if_false, if_true, Option.getD_some, callRun, callAfterConnect,
      releasePipe]
    split_ifs <;> simp_all
  · by_cases h2 : NT_SUCCESS (os ((waitForRun os tmo (tr ++ [connectRequest name]) name 1000).2 ++
        [connectRequest name])).status = true
    · simp only [PhCallNamedPipe, StateT.run_bind, StateT.run_pure, Id.bind_eq, Id.pure_eq,
        call_run, M_ite_run, pure_bind, bind_pure, PhConnectPipe_run, PhWaitForNamedPipe_run,
        PhTransceiveNamedPipe_run, PhDisconnectNamedPipe_run, h1, h2, Bool.not_true,
        Bool.not_false, Bool.false_eq_true, if_false, if_true, Option.getD_some,
        Option.getD_none, callRun, callAfterConnect, releasePipe]
      split_ifs <;> simp_all
    · simp only [PhCallNamedPipe, StateT.run_bind, StateT.run_pure, Id.bind_eq, Id.pure_eq,
        call_run, M_ite_run, pure_bind, bind_pure, PhConnectPipe_run, PhWaitForNamedPipe_run,
        PhTransceiveNamedPipe_run, PhDisconnectNamedPipe_run, h1, h2, Bool.not_true,
        Bool.not_false, Bool.false_eq_true, if_false, if_true, Option.getD_some,
        Option.getD_none, callRun, callAfterConnect, releasePipe]
      simp_all

theorem twoPhaseRun_trace (os : OS) (t : Trace) (h : HANDLE) (req : Event) :
    (twoPhaseRun os t h req).2 = t ++ [req] ∨ (twoPhaseRun os t h req).2 = t ++ [req, waitOn h] := by
  unfold twoPhaseRun
  by_cases hp : (os (t ++ [req])).status = STATUS_PENDING
  · rw [if_pos hp]
    exact Or.inr rfl
  · rw [if_neg hp]
    exact Or.inl rfl

theorem waitForRun_trace (os : OS) (tmo : Nat → LARGE_INTEGER) (t : Trace) (name : List Nat)
    (T : Nat) :
    ∃ W, IsWaitForPipe os tmo t name T W ∧ (waitForRun os tmo t name T).2 = t ++ W := by
  simp only [waitForRun, IsWaitForPipe]
  by_cases hd : NT_SUCCESS (os (t ++ [Event.NtOpenFile DEVICE_NAMED_PIPE 0 false])).status = true
  · rw [if_pos hd]
    exact ⟨_, Or.inr rfl, rfl⟩
  · rw [if_neg hd]
    exact ⟨_, Or.inl rfl, rfl⟩

theorem callAfterConnect_trace (os : OS) (tc : Trace) (h : HANDLE) (inp : List Nat)
    (inLen outLen : Nat) :
    ∃ mid, IsExchange h inp inLen outLen mid ∧
      (h = 0 → (callAfterConnect os tc h inp inLen outLen).2 = tc ++ mid) ∧
      (h ≠ 0 → ∃ D, IsDisconnect h D ∧
        (callAfterConnect os tc h inp inLen outLen).2 =
          tc ++ mid ++ [.NtFlushBuffersFile h] ++ D ++ [.NtClose h]) := by
  have hmid : ∃ mid, IsExchange h inp inLen outLen mid ∧
      (if NT_SUCCESS (os (tc ++ [Event.NtSetInformationFile h FILE_PIPE_MESSAGE_MODE
          FILE_PIPE_QUEUE_OPERATION])).status = true then
        twoPhaseRun os (tc ++ [Event.NtSetInformationFile h FILE_PIPE_MESSAGE_MODE
          FILE_PIPE_QUEUE_OPERATION]) h
          (Event.NtFsControlFile h FSCTL_PIPE_TRANSCEIVE (InputBuffer.bytes inp) inLen outLen)
       else ((os (tc ++ [Event.NtSetInformationFile h FILE_PIPE_MESSAGE_MODE
          FILE_PIPE_QUEUE_OPERATION])).status, tc ++ [Event.NtSetInformationFile h
            FILE_PIPE_MESSAGE_MODE FILE_PIPE_QUEUE_OPERATION])).2 = tc ++ mid := by
    split_ifs
    · rcases twoPhaseRun_trace os (tc ++ [Event.NtSetInformationFile h FILE_PIPE_MESSAGE_MODE
          FILE_PIPE_QUEUE_OPERATION]) h
        (Event.NtFsControlFile h FSCTL_PIPE_TRANSCEIVE (InputBuffer.bytes inp) inLen outLen)
        with ht | ht
      · exact ⟨_, Or.inr (Or.inl rfl), by rw [ht]; simp [setModeRequest, transceiveRequest]⟩
      · exact ⟨_, Or.inr (Or.inr rfl), by rw [ht]; simp [setModeRequest, transceiveRequest]⟩
    · exact ⟨_, Or.inl rfl, rfl⟩
  obtain ⟨mid, hm, htx⟩ := hmid
  refine ⟨mid, hm, fun h0 => ?_, fun hn => ?_⟩
  · simp only [callAfterConnect, ne_eq, h0, not_true_eq_false, if_false]
    rw [← htx, h0]
  · simp only [callAfterConnect, ne_eq, hn, not_false_eq_true, if_true, releasePipe]
    rw [htx]
    rcases twoPhaseRun_trace os (tc ++ mid ++ [Event.NtFlushBuffersFile h]) h
      (Event.NtFsControlFile h FSCTL_PIPE_DISCONNECT InputBuffer.null 0 0) with hd | hd
    · exact ⟨_, Or.inl rfl, by rw [hd]; rfl⟩
    · exact ⟨_, Or.inr rfl, by rw [hd]; rfl⟩

theorem drop_length_append (l₁ l₂ : Trace) : (l₁ ++ l₂).drop l₁.length = l₂ := by
  induction l₁ with
  | nil => rfl
  | cons a l ih => simp [ih]

theorem IsExchange_calls (h : HANDLE) (inp : List Nat) (inLen outLen : Nat) (mid : Trace)
    (hm : IsExchange h inp inLen outLen mid) :
    ∀ e ∈ mid, isConnect e = false ∧ isWaitForPipe e = false ∧ isRelease e = false := by
  rcases hm with hm | hm | hm <;> subst hm <;>
    simp [setModeRequest, transceiveRequest, waitOn, isConnect, isWaitForPipe, isRelease]

theorem IsDisconnect_calls (h : HANDLE) (D : Trace) (hD : IsDisconnect h D) :
    ∀ e ∈ D, isConnect e = false ∧ isWaitForPipe e = false := by
  rcases hD with hD | hD <;> subst hD <;>
    simp [disconnectRequest, waitOn, isConnect, isWaitForPipe]

theorem IsWaitForPipe_calls (os : OS) (tmo : Nat → LARGE_INTEGER) (t : Trace) (name : List Nat)
    (T : Nat) (W : Trace) (hW : IsWaitForPipe os tmo t name T W) :
    ∀ e ∈ W, isConnect e = false := by
  rcases hW with hW | hW <;> subst hW <;> simp [isConnect]

theorem callAfterConnect_rest (os : OS) (tc : Trace) (h : HANDLE) (inp : List Nat)
    (inLen outLen : Nat) :
    ∃ rest, (callAfterConnect os tc h inp inLen outLen).2 = tc ++ rest ∧
      ∀ e ∈ rest, isConnect e = false ∧ isWaitForPipe e = false := by
  obtain ⟨mid, hm, h0, hn⟩ := callAfterConnect_trace os tc h inp inLen outLen
  have hmid := IsExchange_calls h inp inLen outLen mid hm
  by_cases hh : h = 0
  · exact ⟨mid, h0 hh, fun e he => ⟨(hmid e he).1, (hmid e he).2.1⟩⟩
  · obtain ⟨D, hD, htr⟩ := hn hh
    have hDc := IsDisconnect_calls h D hD
    refine ⟨mid ++ [.NtFlushBuffersFile h] ++ D ++ [.NtClose h], ?_, ?_⟩
    · rw [htr]
      simp only [List.append_assoc]
    · intro e he
      simp only [List.mem_append, List.mem_singleton] at he
      rcases he with ((he | he) | he) | he
      · exact ⟨(hmid e he).1, (hmid e he).2.1⟩
      · subst he
        exact ⟨rfl, rfl⟩
      · exact hDc e he
      · subst he
        exact ⟨rfl, rfl⟩

theorem waitForBufferLength_fit (name : List Nat)
    (hfit : FIELD_OFFSET_FILE_PIPE_WAIT_FOR_BUFFER_Name + 2 * name.length < 2 ^ 32) :
    waitForBufferLength name = FIELD_OFFSET_FILE_PIPE_WAIT_FOR_BUFFER_Name + 2 * name.length := by
  unfold waitForBufferLength toULONG FIELD_OFFSET_FILE_PIPE_WAIT_FOR_BUFFER_Name at *
  omega

theorem waitForBuffer_fit (tmo : Nat → LARGE_INTEGER) (name : List Nat) (T : Nat)
    (hfit : FIELD_OFFSET_FILE_PIPE_WAIT_FOR_BUFFER_Name + 2 * name.length < 2 ^ 32) :
    waitForBuffer tmo name T =
      { Timeout := if T ≠ 0 then tmo T else ⟨0, MINLONG⟩
        NameLength := 2 * name.length
        TimeoutSpecified := true
        Name := name } := by
  have h1 : toULONG (2 * name.length) = 2 * name.length := by
    unfold toULONG FIELD_OFFSET_FILE_PIPE_WAIT_FOR_BUFFER_Name at *
    omega
  have h2 : 2 * name.length / 2 = name.length := by omega
  unfold waitForBuffer
  rw [h1, h2, List.take_length]

theorem waitForRun_long_name (name : List Nat) (hlen : name.length = 2147483647) :
    (waitForRun osNoServer sampleTimeout [] name 1000).2 =
      [.NtOpenFile DEVICE_NAMED_PIPE 0 false, .PhAllocate 12,
       .NtFsControlFile 16 FSCTL_PIPE_WAIT
         (.waitFor ⟨sampleTimeout 1000, 4294967294, true, name⟩) 12 0,
       .PhFree 8192, .NtClose 16] := by
  have hd : NT_SUCCESS
      (osNoServer ([] ++ [Event.NtOpenFile DEVICE_NAMED_PIPE 0 false])).status = true := rfl
  have hl : waitForBufferLength name = 12 := by
    unfold waitForBufferLength toULONG FIELD_OFFSET_FILE_PIPE_WAIT_FOR_BUFFER_Name
    omega
  have hb : waitForBuffer sampleTimeout name 1000 =
      ⟨sampleTimeout 1000, 4294967294, true, name⟩ := by
    have h1 : toULONG (2 * name.length) = 4294967294 := by
      unfold toULONG
      omega
    have h2 : 2 * name.length / 2 = name.length := by omega
    unfold waitForBuffer
    rw [h1, h2, List.take_length, if_pos (by decide)]
  simp only [waitForRun]
  rw [if_pos hd, hl, hb]
  rfl

/-! ## Pipe creation -/

/-- C1 (the code at the failing input): when the pipe-device directory and the pipe file are
opened and opening the write handle then fails, `PhCreatePipeEx` returns the failure, stores no
handle for the caller, frees the ACL and closes the directory handle `16`, and never closes the
pipe read handle `20` it created. -/
theorem PhCreatePipeEx_leaks_read_handle :
    (PhCreatePipeEx osWriteOpenFails false 0).run [] =
      ((STATUS_ACCESS_DENIED, none, none),
        [.NtOpenFile DEVICE_NAMED_PIPE 0 false, .RtlDefaultNpAcl,
         .NtCreateNamedPipeFile [] 16 false (.defaultAcl 4096) 120000,
         .NtOpenFile [] 20 false, .RtlFreeHeap 4096, .NtClose 16]) ∧
    NT_SUCCESS STATUS_ACCESS_DENIED = false ∧
    Event.NtClose 20 ∉ ((PhCreatePipeEx osWriteOpenFails false 0).run []).2 := by
  refine ⟨rfl, rfl, ?_⟩
  have h : ((PhCreatePipeEx osWriteOpenFails false 0).run []).2 =
      [.NtOpenFile DEVICE_NAMED_PIPE 0 false, .RtlDefaultNpAcl,
       .NtCreateNamedPipeFile [] 16 false (.defaultAcl 4096) 120000,
       .NtOpenFile [] 20 false, .RtlFreeHeap 4096, .NtClose 16] := rfl
  rw [h]
  decide

/-- C9: when `PhCreatePipeEx` is given a security descriptor it neither calls the default ACL
provider nor frees anything.  When it is given none and the provider succeeds with an ACL, it
frees that ACL exactly once, after the pipe creation (and the write-handle open, when the
creation succeeded) and before closing the directory handle, whatever the statuses of those
calls.  `PhCreateNamedPipe` frees the ACL of a successful provider call exactly once, after the
pipe creation, whatever its status. -/
theorem default_acl_freed_once (os : OS) (tr : Trace) (inh : Bool) (SD : Nat)
    (PipeName : List Nat) :
    let open0 := Event.NtOpenFile DEVICE_NAMED_PIPE 0 false
    let d := os (tr ++ [open0])
    let a := os (tr ++ [open0, .RtlDefaultNpAcl])
    let create := Event.NtCreateNamedPipeFile [] d.handle inh (.defaultAcl a.pointer) 120000
    let c := os (tr ++ [open0, .RtlDefaultNpAcl, create])
    let openw := Event.NtOpenFile [] c.handle inh
    let a' := os (tr ++ [.RtlDefaultNpAcl])
    let create' := Event.NtCreateNamedPipeFile (DEVICE_NAMED_PIPE ++ PipeName) 0 false
      (.defaultAcl a'.pointer) 1000
    (SD ≠ 0 → ∃ issued : Trace, ((PhCreatePipeEx os inh SD).run tr).2 = tr ++ issued ∧
      ∀ e ∈ issued, e ≠ .RtlDefaultNpAcl ∧ isFree e = false) ∧
    (NT_SUCCESS d.status = true → NT_SUCCESS a.status = true → a.pointer ≠ 0 →
      (NT_SUCCESS c.status = false → ((PhCreatePipeEx os inh 0).run tr).2 =
        tr ++ [open0, .RtlDefaultNpAcl, create, .RtlFreeHeap a.pointer, .NtClose d.handle]) ∧
      (NT_SUCCESS c.status = true → ((PhCreatePipeEx os inh 0).run tr).2 =
        tr ++ [open0, .RtlDefaultNpAcl, create, openw, .RtlFreeHeap a.pointer,
          .NtClose d.handle])) ∧
    (NT_SUCCESS a'.status = true → a'.pointer ≠ 0 →
      ((PhCreateNamedPipe os PipeName).run tr).2 =
        tr ++ [.RtlDefaultNpAcl, create', .RtlFreeHeap a'.pointer]) := by
  intro open0 d a create c openw a' create'
  refine ⟨fun hSD => ?_, fun hd ha hp => ⟨fun hc => ?_, fun hc => ?_⟩, fun ha hp => ?_⟩
  · rw [PhCreatePipeEx_run]
    simp only [createPipeExRun, if_pos hSD, ne_eq, not_true_eq_false, if_false]
    split_ifs <;>
      simp only [List.append_assoc, List.nil_append, List.cons_append, List.singleton_append] <;>
      exact ⟨_, rfl, by simp [isFree]⟩
  · rw [PhCreatePipeEx_run]
    simp only [createPipeExRun, if_pos hd, ne_eq, not_true_eq_false, if_false, if_pos ha]
    have hc' : ¬ NT_SUCCESS (os (tr ++ [open0, .RtlDefaultNpAcl] ++ [create])).status = true := by
      simpa [c] using hc
    rw [if_neg hc', if_pos hp]
    simp
  · rw [PhCreatePipeEx_run]
    simp only [createPipeExRun, if_pos hd, ne_eq, not_true_eq_false, if_false, if_pos ha]
    have hc' : NT_SUCCESS (os (tr ++ [open0, .RtlDefaultNpAcl] ++ [create])).status = true := by
      simpa [c] using hc
    rw [if_pos hc', if_pos hp]
    simp [openw, c]
  · rw [PhCreateNamedPipe_run]
    simp only [createNamedPipeRun, if_pos ha, if_pos hp]
    simp [create']

/-- C9 (instance): under an operating system whose provider returns the ACL `4096` and whose
write-handle open fails, `PhCreatePipeEx` without a security descriptor frees `4096` once, and
with the security descriptor `5` it issues no provider call and no free. -/
theorem default_acl_freed_once_witness :
    ((PhCreatePipeEx osWriteOpenFails false 0).run []).2 =
      [.NtOpenFile DEVICE_NAMED_PIPE 0 false, .RtlDefaultNpAcl,
       .NtCreateNamedPipeFile [] 16 false (.defaultAcl 4096) 120000,
       .NtOpenFile [] 20 false, .RtlFreeHeap 4096, .NtClose 16] ∧
    (∃ issued : Trace, ((PhCreatePipeEx osWriteOpenFails false 5).run []).2 = [] ++ issued ∧
      ∀ e ∈ issued, e ≠ .RtlDefaultNpAcl ∧ isFree e = false) ∧
    ((PhCreateNamedPipe osWriteOpenFails [112]).run []).2 =
      [.RtlDefaultNpAcl,
       .NtCreateNamedPipeFile (DEVICE_NAMED_PIPE ++ [112]) 0 false (.defaultAcl 4096) 1000,
       .RtlFreeHeap 4096] :=
  ⟨((default_acl_freed_once osWriteOpenFails [] false 5 [112]).2.1 rfl rfl (by decide)).2 rfl,
   (default_acl_freed_once osWriteOpenFails [] false 5 [112]).1 (by decide),
   (default_acl_freed_once osWriteOpenFails [] false 5 [112]).2.2 rfl (by decide)⟩

/-! ## Control operations -/

/-- C2: listen, disconnect, transceive and the five attribute queries each issue exactly one
filesystem-control request; a status other than `STATUS_PENDING` is the result and no wait is
performed; on `STATUS_PENDING` the function waits once on the pipe handle, without timeout, and
the result is the completion status of the I/O status block when the wait succeeds and the
status of the wait when it fails. -/
theorem control_operations_two_phase (os : OS) (tr : Trace) (h : HANDLE) (inp : List Nat)
    (inLen outLen nameLen : Nat) (out : Bool) :
    TwoPhase os tr h (.NtFsControlFile h FSCTL_PIPE_LISTEN .null 0 0)
      ((PhListenNamedPipe os h).run tr).1 ((PhListenNamedPipe os h).run tr).2 ∧
    TwoPhase os tr h (.NtFsControlFile h FSCTL_PIPE_DISCONNECT .null 0 0)
      ((PhDisconnectNamedPipe os h).run tr).1 ((PhDisconnectNamedPipe os h).run tr).2 ∧
    TwoPhase os tr h (.NtFsControlFile h FSCTL_PIPE_TRANSCEIVE (.bytes inp) inLen outLen)
      ((PhTransceiveNamedPipe os h inp inLen outLen).run tr).1
      ((PhTransceiveNamedPipe os h inp inLen outLen).run tr).2 ∧
    TwoPhase os tr h (.NtFsControlFile h FSCTL_PIPE_GET_CONNECTION_ATTRIBUTE
        (.bytes (cString "ClientComputerName")) (sizeofLiteral "ClientComputerName") nameLen)
      ((PhGetNamedPipeClientComputerName os h nameLen).run tr).1
      ((PhGetNamedPipeClientComputerName os h nameLen).run tr).2 ∧
    TwoPhase os tr h (.NtFsControlFile h FSCTL_PIPE_GET_CONNECTION_ATTRIBUTE
        (.bytes (cString "ClientProcessId")) (sizeofLiteral "ClientProcessId") 4)
      ((PhGetNamedPipeClientProcessId os h out).run tr).1.1
      ((PhGetNamedPipeClientProcessId os h out).run tr).2 ∧
    TwoPhase os tr h (.NtFsControlFile h FSCTL_PIPE_GET_CONNECTION_ATTRIBUTE
        (.bytes (cString "ClientSessionId")) (sizeofLiteral "ClientSessionId") 4)
      ((PhGetNamedPipeClientSessionId os h out).run tr).1.1
      ((PhGetNamedPipeClientSessionId os h out).run tr).2 ∧
    TwoPhase os tr h (.NtFsControlFile h FSCTL_PIPE_GET_PIPE_ATTRIBUTE
        (.bytes (cString "ServerProcessId")) (sizeofLiteral "ServerProcessId") 4)
      ((PhGetNamedPipeServerProcessId os h out).run tr).1.1
      ((PhGetNamedPipeServerProcessId os h out).run tr).2 ∧
    TwoPhase os tr h (.NtFsControlFile h FSCTL_PIPE_GET_PIPE_ATTRIBUTE
        (.bytes (cString "ServerSessionId")) (sizeofLiteral "ServerSessionId") 4)
      ((PhGetNamedPipeServerSessionId os h out).run tr).1.1
      ((PhGetNamedPipeServerSessionId os h out).run tr).2 := by
  rw [PhListenNamedPipe_run, PhDisconnectNamedPipe_run, PhTransceiveNamedPipe_run,
    PhGetNamedPipeClientComputerName_run, PhGetNamedPipeClientProcessId_run,
    PhGetNamedPipeClientSessionId_run, PhGetNamedPipeServerProcessId_run,
    PhGetNamedPipeServerSessionId_run]
  exact ⟨twoPhaseRun_spec .., twoPhaseRun_spec .., twoPhaseRun_spec .., twoPhaseRun_spec ..,
    twoPhaseRun_spec .., twoPhaseRun_spec .., twoPhaseRun_spec .., twoPhaseRun_spec ..⟩

/-- C3 (as stated, refuted): under an operating system that reports the impersonation requests
pending and completes them successfully, `PhImpersonateClientOfNamedPipe` and
`PhDisableImpersonateNamedPipe` issue no wait and return `STATUS_PENDING`, so neither follows
the two-phase contract. -/
theorem impersonate_returns_pending :
    (PhImpersonateClientOfNamedPipe osPendingThenDone 1).run [] =
      (STATUS_PENDING, [.NtFsControlFile 1 FSCTL_PIPE_IMPERSONATE .null 0 0]) ∧
    (PhDisableImpersonateNamedPipe osPendingThenDone 1).run [] =
      (STATUS_PENDING, [.NtFsControlFile 1 FSCTL_PIPE_DISABLE_IMPERSONATE .null 0 0]) ∧
    NT_SUCCESS (osPendingThenDone
      [.NtFsControlFile 1 FSCTL_PIPE_IMPERSONATE .null 0 0, waitOn 1]).status = true ∧
    NT_SUCCESS (osPendingThenDone
      [.NtFsControlFile 1 FSCTL_PIPE_DISABLE_IMPERSONATE .null 0 0, waitOn 1]).status = true ∧
    ¬ TwoPhase osPendingThenDone [] 1 (.NtFsControlFile 1 FSCTL_PIPE_IMPERSONATE .null 0 0)
      ((PhImpersonateClientOfNamedPipe osPendingThenDone 1).run []).1
      ((PhImpersonateClientOfNamedPipe osPendingThenDone 1).run []).2 ∧
    ¬ TwoPhase osPendingThenDone [] 1
      (.NtFsControlFile 1 FSCTL_PIPE_DISABLE_IMPERSONATE .null 0 0)
      ((PhDisableImpersonateNamedPipe osPendingThenDone 1).run []).1
      ((PhDisableImpersonateNamedPipe osPendingThenDone 1).run []).2 := by
  refine ⟨rfl, rfl, rfl, rfl, ?_, ?_⟩
  · intro hc
    have h2 := (hc.2 rfl).1
    rw [PhImpersonateClientOfNamedPipe_run] at h2
    simp [waitOn] at h2
  · intro hc
    have h2 := (hc.2 rfl).1
    rw [PhDisableImpersonateNamedPipe_run] at h2
    simp [waitOn] at h2

/-- C3 (amended): `PhImpersonateClientOfNamedPipe` and `PhDisableImpersonateNamedPipe` issue
exactly one filesystem-control request, perform no wait, and return the status of that request
unchanged, `STATUS_PENDING` included. -/
theorem impersonate_returns_request_status (os : OS) (tr : Trace) (h : HANDLE) :
    (PhImpersonateClientOfNamedPipe os h).run tr =
      ((os (tr ++ [.NtFsControlFile h FSCTL_PIPE_IMPERSONATE .null 0 0])).status,
        tr ++ [.NtFsControlFile h FSCTL_PIPE_IMPERSONATE .null 0 0]) ∧
    (PhDisableImpersonateNamedPipe os h).run tr =
      ((os (tr ++ [.NtFsControlFile h FSCTL_PIPE_DISABLE_IMPERSONATE .null 0 0])).status,
        tr ++ [.NtFsControlFile h FSCTL_PIPE_DISABLE_IMPERSONATE .null 0 0]) :=
  ⟨PhImpersonateClientOfNamedPipe_run os h tr, PhDisableImpersonateNamedPipe_run os h tr⟩

/-- C10: each of the four identifier queries sends the ASCII attribute name of the function
followed by one NUL, with payload length the name length plus one, under the connection-attribute
code for the client queries and the pipe-attribute code for the server queries, with a reply
buffer of 4 bytes; on success through a non-null out-pointer the stored handle is the 32-bit
reply value with zero upper bits; on failure nothing is stored. -/
theorem identifier_queries (os : OS) (tr : Trace) (h : HANDLE) (out : Bool) :
    IdQuery os tr h (.NtFsControlFile h FSCTL_PIPE_GET_CONNECTION_ATTRIBUTE
        (.bytes ("ClientProcessId".toList.map Char.toNat ++ [0])) ("ClientProcessId".length + 1) 4)
      out ((PhGetNamedPipeClientProcessId os h out).run tr) ∧
    IdQuery os tr h (.NtFsControlFile h FSCTL_PIPE_GET_CONNECTION_ATTRIBUTE
        (.bytes ("ClientSessionId".toList.map Char.toNat ++ [0])) ("ClientSessionId".length + 1) 4)
      out ((PhGetNamedPipeClientSessionId os h out).run tr) ∧
    IdQuery os tr h (.NtFsControlFile h FSCTL_PIPE_GET_PIPE_ATTRIBUTE
        (.bytes ("ServerProcessId".toList.map Char.toNat ++ [0])) ("ServerProcessId".length + 1) 4)
      out ((PhGetNamedPipeServerProcessId os h out).run tr) ∧
    IdQuery os tr h (.NtFsControlFile h FSCTL_PIPE_GET_PIPE_ATTRIBUTE
        (.bytes ("ServerSessionId".toList.map Char.toNat ++ [0])) ("ServerSessionId".length + 1) 4)
      out ((PhGetNamedPipeServerSessionId os h out).run tr) := by
  rw [PhGetNamedPipeClientProcessId_run, PhGetNamedPipeClientSessionId_run,
    PhGetNamedPipeServerProcessId_run, PhGetNamedPipeServerSessionId_run]
  exact ⟨idQueryRun_spec .., idQueryRun_spec .., idQueryRun_spec .., idQueryRun_spec ..⟩

/-! ## Peek -/

/-- C6: `PhPeekNamedPipe` never returns `STATUS_BUFFER_OVERFLOW`.  When the status held after
the pending/wait step is `STATUS_BUFFER_OVERFLOW` it returns `STATUS_SUCCESS`, and its whole
outcome (status, outputs, calls issued) is the outcome of the run in which the operating system
stores the same data and that status is `STATUS_SUCCESS`.  In both cases, overflow and ordinary
success alike, every requested output is stored and no other: the copy into `Buffer` and
`NumberOfBytesRead` take the byte count of the I/O status block minus the offset of `Data`,
`NumberOfBytesAvailable` takes `ReadDataAvailable`, `NumberOfBytesLeftInMessage` takes
`MessageLength` minus the bytes read (differences in unsigned 32-bit arithmetic); and the calls
issued are the allocation, the request, the wait when pending, and the release of the reply
buffer. -/
theorem peek_buffer_overflow_is_success (os : OS) (tr : Trace) (h : HANDLE) (B : Bool) (L : Nat)
    (nR nA nL : Bool) :
    ((PhPeekNamedPipe os h B L nR nA nL).run tr).1.1 ≠ STATUS_BUFFER_OVERFLOW ∧
    ((twoPhaseRun os (peekStart tr L) h (peekRequest h L)).1 = STATUS_BUFFER_OVERFLOW →
      ((PhPeekNamedPipe os h B L nR nA nL).run tr).1.1 = STATUS_SUCCESS ∧
      ∀ os' : OS, SameData os os' →
        ((os' (peekStart tr L ++ [peekRequest h L])).status = STATUS_PENDING ↔
          (os (peekStart tr L ++ [peekRequest h L])).status = STATUS_PENDING) →
        (twoPhaseRun os' (peekStart tr L) h (peekRequest h L)).1 = STATUS_SUCCESS →
        (PhPeekNamedPipe os' h B L nR nA nL).run tr =
          (PhPeekNamedPipe os h B L nR nA nL).run tr) ∧
    ((twoPhaseRun os (peekStart tr L) h (peekRequest h L)).1 = STATUS_BUFFER_OVERFLOW ∨
        (twoPhaseRun os (peekStart tr L) h (peekRequest h L)).1 = STATUS_SUCCESS →
      let obs := observed os (peekStart tr L) h (peekRequest h L)
      let res := (PhPeekNamedPipe os h B L nR nA nL).run tr
      res.1.1 = STATUS_SUCCESS ∧
      (∃ calls : Trace, (calls = [peekRequest h L] ∨ calls = [peekRequest h L, waitOn h]) ∧
        res.2 = peekStart tr L ++ calls ++ [.PhFree (os (peekStart tr L)).pointer]) ∧
      ∃ n left : Nat,
        (n : Int) = ((obs.isb.Information : Int) -
          (FIELD_OFFSET_FILE_PIPE_PEEK_BUFFER_Data : Nat)) % 2 ^ 32 ∧
        (left : Int) = ((obs.peek.MessageLength : Int) - (n : Int)) % 2 ^ 32 ∧
        res.1.2.CopyLength = (if B = true then some n else none) ∧
        res.1.2.Buffer = (if B = true then some (obs.peek.Data.take n) else none) ∧
        res.1.2.NumberOfBytesRead = (if nR = true then some n else none) ∧
        res.1.2.NumberOfBytesAvailable =
          (if nA = true then some obs.peek.ReadDataAvailable else none) ∧
        res.1.2.NumberOfBytesLeftInMessage = (if nL = true then some left else none)) := by
  refine ⟨?_, fun hov => ⟨?_, fun os' hdata hpend hok => ?_⟩, fun hcase => ?_⟩
  · rw [PhPeekNamedPipe_run]
    simp only [peekRun]
    split_ifs with hc
    · exact STATUS_SUCCESS_ne_overflow
    · exact hc
  · rw [PhPeekNamedPipe_run]
    simp only [peekRun, hov, if_true]
  · rw [PhPeekNamedPipe_run, PhPeekNamedPipe_run]
    have hobs := observed_congr os os' (peekStart tr L) h (peekRequest h L) hdata hpend
    have htr := twoPhaseRun_trace_congr os os' (peekStart tr L) h (peekRequest h L) hpend
    have hptr : (os' (peekStart tr L)).pointer = (os (peekStart tr L)).pointer := (hdata _).2.1
    simp only [peekRun, hov, hok, if_true, if_neg STATUS_SUCCESS_ne_overflow,
      NT_SUCCESS_STATUS_SUCCESS, htr, hptr, hobs.2,
      PhPeekNamedPipe_store_congr B nR nA nL _ _ _ hobs.1]
  · intro obs res
    have hres : res = peekRun os tr h B L nR nA nL := PhPeekNamedPipe_run ..
    have hst : (peekRun os tr h B L nR nA nL).1.1 = STATUS_SUCCESS := by
      simp only [peekRun]
      rcases hcase with hc | hc
      · rw [if_pos hc]
      · rw [if_neg (by rw [hc]; exact STATUS_SUCCESS_ne_overflow), hc]
    have hout := peekRun_success os tr h B L nR nA nL
      (by rw [hst]; exact NT_SUCCESS_STATUS_SUCCESS)
    have htrace : (peekRun os tr h B L nR nA nL).2 =
        (twoPhaseRun os (peekStart tr L) h (peekRequest h L)).2 ++
          [.PhFree (os (peekStart tr L)).pointer] := rfl
    rw [hres]
    refine ⟨hst, ?_, toULONG (subULONG_PTR obs.isb.Information
        FIELD_OFFSET_FILE_PIPE_PEEK_BUFFER_Data),
      subULONG obs.peek.MessageLength (toULONG (subULONG_PTR obs.isb.Information
        FIELD_OFFSET_FILE_PIPE_PEEK_BUFFER_Data)),
      bytesRead_int _, subULONG_int _ _, ?_⟩
    · rw [htrace]
      rcases twoPhaseRun_trace os (peekStart tr L) h (peekRequest h L) with ht | ht
      · exact ⟨_, Or.inl rfl, by rw [ht]⟩
      · exact ⟨_, Or.inr rfl, by rw [ht]⟩
    · rw [hout]
      cases B <;> cases nR <;> cases nA <;> cases nL <;>
        simp [PhPeekNamedPipe.store, obs]

/-- C6 (instance): a peek with a 4-byte buffer at a 10-byte message ends with
`STATUS_BUFFER_OVERFLOW` after the pending/wait step and returns `STATUS_SUCCESS`, with the
outcome of the run in which the peek ends with `STATUS_SUCCESS`: 4 bytes copied and reported
read, 10 bytes available, 6 bytes left in the message. -/
theorem peek_buffer_overflow_is_success_witness :
    (twoPhaseRun osPeekMessage (peekStart [] 4) 1 (peekRequest 1 4)).1 = STATUS_BUFFER_OVERFLOW ∧
    ((PhPeekNamedPipe osPeekMessage 1 true 4 true true true).run []).1.1 = STATUS_SUCCESS ∧
    (PhPeekNamedPipe osPeekMessageDone 1 true 4 true true true).run [] =
      (PhPeekNamedPipe osPeekMessage 1 true 4 true true true).run [] ∧
    ((PhPeekNamedPipe osPeekMessage 1 true 4 true true true).run []).1.2 =
      ⟨some 4, some [1, 2, 3, 4], some 4, some 10, some 6⟩ ∧
    ((PhPeekNamedPipe osPeekMessage 1 true 4 true true true).run []).2 =
      [.PhAllocate 20, peekRequest 1 4, .PhFree 8192] := by
  have hthm := peek_buffer_overflow_is_success osPeekMessage [] 1 true 4 true true true
  obtain ⟨_, _, n, left, hn, hleft, h1, h2, h3, h4, h5⟩ := hthm.2.2 (Or.inl rfl)
  have hinfo : (observed osPeekMessage (peekStart [] 4) 1 (peekRequest 1 4)).isb.Information =
      20 := rfl
  have hml : (observed osPeekMessage (peekStart [] 4) 1 (peekRequest 1 4)).peek.MessageLength =
      10 := rfl
  have hn4 : n = 4 := by
    rw [hinfo] at hn
    unfold FIELD_OFFSET_FILE_PIPE_PEEK_BUFFER_Data at hn
    omega
  have hl6 : left = 6 := by
    rw [hml] at hleft
    omega
  subst hn4 hl6
  refine ⟨rfl, (hthm.2.1 rfl).1, (hthm.2.1 rfl).2 osPeekMessageDone ?_ (by decide) rfl, ?_, rfl⟩
  · intro t
    unfold osPeekMessage osPeekMessageDone
    split <;> exact ⟨rfl, rfl, rfl, rfl, rfl⟩
  · have hrec : ∀ o : PeekOutputs, o.CopyLength = some 4 → o.Buffer = some [1, 2, 3, 4] →
        o.NumberOfBytesRead = some 4 → o.NumberOfBytesAvailable = some 10 →
        o.NumberOfBytesLeftInMessage = some 6 →
        o = ⟨some 4, some [1, 2, 3, 4], some 4, some 10, some 6⟩ := by
      intro o a b c d e
      cases o
      simp_all
    exact hrec _ h1 h2 h3 h4 h5

/-- C7: on a successful peek with the three counts requested, `NumberOfBytesRead` is the byte
count of the I/O status block minus the offset of `Data`, `NumberOfBytesAvailable` is
`ReadDataAvailable` of the reply, and `NumberOfBytesLeftInMessage` is `MessageLength` of the
reply minus `NumberOfBytesRead`, both differences taken in unsigned 32-bit arithmetic (and exact
when they do not wrap). -/
theorem peek_counts (os : OS) (tr : Trace) (h : HANDLE) (B : Bool) (L : Nat)
    (hs : NT_SUCCESS ((PhPeekNamedPipe os h B L true true true).run tr).1.1 = true) :
    ∃ n left : Nat,
      ((PhPeekNamedPipe os h B L true true true).run tr).1.2.NumberOfBytesRead = some n ∧
      ((PhPeekNamedPipe os h B L true true true).run tr).1.2.NumberOfBytesAvailable =
        some (observed os (peekStart tr L) h (peekRequest h L)).peek.ReadDataAvailable ∧
      ((PhPeekNamedPipe os h B L true true true).run tr).1.2.NumberOfBytesLeftInMessage =
        some left ∧
      n < 2 ^ 32 ∧ left < 2 ^ 32 ∧
      (n : Int) =
        (((observed os (peekStart tr L) h (peekRequest h L)).isb.Information : Int) -
          (FIELD_OFFSET_FILE_PIPE_PEEK_BUFFER_Data : Nat)) % 2 ^ 32 ∧
      (left : Int) =
        (((observed os (peekStart tr L) h (peekRequest h L)).peek.MessageLength : Int) -
          (n : Int)) % 2 ^ 32 ∧
      (FIELD_OFFSET_FILE_PIPE_PEEK_BUFFER_Data ≤
          (observed os (peekStart tr L) h (peekRequest h L)).isb.Information →
        (observed os (peekStart tr L) h (peekRequest h L)).isb.Information <
          2 ^ 32 + FIELD_OFFSET_FILE_PIPE_PEEK_BUFFER_Data →
        n = (observed os (peekStart tr L) h (peekRequest h L)).isb.Information -
          FIELD_OFFSET_FILE_PIPE_PEEK_BUFFER_Data) ∧
      (n ≤ (observed os (peekStart tr L) h (peekRequest h L)).peek.MessageLength →
        (observed os (peekStart tr L) h (peekRequest h L)).peek.MessageLength < 2 ^ 32 →
        left = (observed os (peekStart tr L) h (peekRequest h L)).peek.MessageLength - n) := by
  rw [PhPeekNamedPipe_run] at hs ⊢
  rw [peekRun_success os tr h B L true true true hs]
  refine ⟨_, _, ?_, ?_, ?_, toULONG_lt _, subULONG_lt _ _, bytesRead_int _, subULONG_int _ _,
    bytesRead_exact _, subULONG_exact _ _⟩
  · simp [PhPeekNamedPipe.store]
  · simp [PhPeekNamedPipe.store]
  · simp [PhPeekNamedPipe.store]

/-- C7 (instance): a peek with a 4-byte buffer at a 10-byte message reports 4 bytes read, 10
bytes available and 6 bytes left in the message. -/
theorem peek_counts_witness :
    NT_SUCCESS ((PhPeekNamedPipe osPeekMessage 1 true 4 true true true).run []).1.1 = true ∧
    ∃ n left : Nat,
      ((PhPeekNamedPipe osPeekMessage 1 true 4 true true true).run []).1.2.NumberOfBytesRead =
        some n ∧
      ((PhPeekNamedPipe osPeekMessage 1 true 4 true true true).run []).1.2.NumberOfBytesAvailable =
        some 10 ∧
      ((PhPeekNamedPipe osPeekMessage 1 true 4 true true true).run []).1.2.NumberOfBytesLeftInMessage =
        some left ∧
      n = 4 ∧ left = 6 := by
  refine ⟨rfl, ?_⟩
  obtain ⟨n, left, h1, h2, h3, _, _, _, _, h8, h9⟩ :=
    peek_counts osPeekMessage [] 1 true 4 rfl
  have hn : n = 4 := h8 (by decide) (by decide)
  refine ⟨n, left, h1, h2, h3, hn, ?_⟩
  subst hn
  exact h9 (by decide) (by decide)

/-- C8 (as stated, refuted): a successful peek with a 4-byte buffer for which the operating
system reports 8 bytes, no more than the 20-byte reply buffer it was given, hands
`4294967288` to the copy into the caller's buffer and reports it in `NumberOfBytesRead`. -/
theorem peek_copy_exceeds_length :
    (observed osShortPeek (peekStart [] 4) 1 (peekRequest 1 4)).isb.Information ≤
      toULONG (FIELD_OFFSET_FILE_PIPE_PEEK_BUFFER_Data + 4) ∧
    ((PhPeekNamedPipe osShortPeek 1 true 4 true true true).run []).1.1 = STATUS_SUCCESS ∧
    ((PhPeekNamedPipe osShortPeek 1 true 4 true true true).run []).1.2.CopyLength =
      some 4294967288 ∧
    ((PhPeekNamedPipe osShortPeek 1 true 4 true true true).run []).1.2.NumberOfBytesRead =
      some 4294967288 ∧
    ¬ (4294967288 ≤ 4) := by
  exact ⟨by decide, rfl, rfl, rfl, by decide⟩

/-- C8 (amended): for every 32-bit `Length` and every successful peek with a non-null `Buffer`,
if the byte count the operating system reports is at least the offset of `Data` and at most the
length of the reply buffer, then the number of bytes copied into `Buffer`, which is the number
reported in `NumberOfBytesRead`, is that byte count minus the offset of `Data` and is at most
`Length`. -/
theorem peek_copy_bounded (os : OS) (tr : Trace) (h : HANDLE) (L : Nat) (nR nA nL : Bool)
    (hL : L < 2 ^ 32)
    (hs : NT_SUCCESS ((PhPeekNamedPipe os h true L nR nA nL).run tr).1.1 = true)
    (hlo : FIELD_OFFSET_FILE_PIPE_PEEK_BUFFER_Data ≤
      (observed os (peekStart tr L) h (peekRequest h L)).isb.Information)
    (hhi : (observed os (peekStart tr L) h (peekRequest h L)).isb.Information ≤
      toULONG (FIELD_OFFSET_FILE_PIPE_PEEK_BUFFER_Data + L)) :
    ∃ n : Nat,
      ((PhPeekNamedPipe os h true L nR nA nL).run tr).1.2.CopyLength = some n ∧
      ((PhPeekNamedPipe os h true L nR nA nL).run tr).1.2.Buffer =
        some ((observed os (peekStart tr L) h (peekRequest h L)).peek.Data.take n) ∧
      (nR = true →
        ((PhPeekNamedPipe os h true L nR nA nL).run tr).1.2.NumberOfBytesRead = some n) ∧
      n = (observed os (peekStart tr L) h (peekRequest h L)).isb.Information -
        FIELD_OFFSET_FILE_PIPE_PEEK_BUFFER_Data ∧
      n ≤ L := by
  rw [PhPeekNamedPipe_run] at hs ⊢
  rw [peekRun_success os tr h true L nR nA nL hs]
  have hlt : (observed os (peekStart tr L) h (peekRequest h L)).isb.Information <
      2 ^ 32 + FIELD_OFFSET_FILE_PIPE_PEEK_BUFFER_Data := by
    have := toULONG_lt (FIELD_OFFSET_FILE_PIPE_PEEK_BUFFER_Data + L)
    omega
  have hn := bytesRead_exact _ hlo hlt
  refine ⟨_, ?_, ?_, fun hr => ?_, hn, ?_⟩
  · simp [PhPeekNamedPipe.store]
  · simp [PhPeekNamedPipe.store]
  · simp [PhPeekNamedPipe.store, hr]
  · rw [hn]
    unfold toULONG FIELD_OFFSET_FILE_PIPE_PEEK_BUFFER_Data at *
    omega

/-- C8 (amended, instance): a peek with a 4-byte buffer at a 10-byte message, for which the
operating system reports 20 bytes, copies 4 bytes. -/
theorem peek_copy_bounded_witness :
    (4 : Nat) < 2 ^ 32 ∧
    ∃ n : Nat,
      ((PhPeekNamedPipe osPeekMessage 1 true 4 true true true).run []).1.2.CopyLength = some n ∧
      n ≤ 4 := by
  refine ⟨by decide, ?_⟩
  obtain ⟨n, h1, _, _, _, h5⟩ :=
    peek_copy_bounded osPeekMessage [] 1 4 true true true (by decide) rfl (by decide) (by decide)
  exact ⟨n, h1, h5⟩

/-! ## Composite round trip -/

/-- C4: when the first connect attempt of `PhCallNamedPipe` succeeds there is exactly one
connect attempt and no `PhWaitForNamedPipe`.  When it fails, the calls of exactly one
`PhWaitForNamedPipe` for the pipe name with 1000 ms follow it, then, whatever that wait returned,
a second connect attempt, and nothing after it is a connect attempt or a wait for the pipe:
exactly two connect attempts; and when the second attempt fails too nothing is issued after it
and its status is returned. -/
theorem call_connect_attempts (os : OS) (tmo : Nat → LARGE_INTEGER) (tr : Trace)
    (name inp : List Nat) (inLen outLen : Nat) :
    let connect := connectRequest name
    let r1 := os (tr ++ [connect])
    let t1 := ((PhWaitForNamedPipe os tmo name 1000).run (tr ++ [connect])).2
    let r2 := os (t1 ++ [connect])
    let res := (PhCallNamedPipe os tmo name inp inLen outLen).run tr
    (NT_SUCCESS r1.status = true →
      ∃ rest, res.2 = tr ++ [connect] ++ rest ∧
        (∀ e ∈ rest, isConnect e = false ∧ isWaitForPipe e = false) ∧
        connectAttempts (res.2.drop tr.length) = 1) ∧
    (NT_SUCCESS r1.status = false →
      ∃ W rest, IsWaitForPipe os tmo (tr ++ [connect]) name 1000 W ∧
        t1 = tr ++ [connect] ++ W ∧
        res.2 = tr ++ [connect] ++ W ++ [connect] ++ rest ∧
        (∀ e ∈ rest, isConnect e = false ∧ isWaitForPipe e = false) ∧
        connectAttempts (res.2.drop tr.length) = 2 ∧
        (NT_SUCCESS r2.status = false → rest = [] ∧ res.1 = r2.status)) := by
  intro connect r1 t1 r2 res
  have hres : res = callRun os tmo tr name inp inLen outLen := PhCallNamedPipe_run ..
  have ht1 : t1 = (waitForRun os tmo (tr ++ [connect]) name 1000).2 := by
    show ((PhWaitForNamedPipe os tmo name 1000).run (tr ++ [connect])).2 = _
    rw [PhWaitForNamedPipe_run]
  refine ⟨fun h1 => ?_, fun h1 => ?_⟩
  · obtain ⟨rest, hrest, hcalls⟩ :=
      callAfterConnect_rest os (tr ++ [connect]) r1.handle inp inLen outLen
    have htr : res.2 = tr ++ [connect] ++ rest := by
      rw [hres]
      simp only [callRun]
      rw [if_pos h1]
      exact hrest
    refine ⟨rest, htr, hcalls, ?_⟩
    have h0 : List.countP isConnect rest = 0 :=
      List.countP_eq_zero.2 (fun e he => by simp [(hcalls e he).1])
    rw [htr, List.append_assoc, drop_length_append]
    simp [connectAttempts, List.countP_cons, h0, connect, connectRequest, isConnect]
  · have h1' : ¬ NT_SUCCESS r1.status = true := by simp [h1]
    obtain ⟨W, hW, hWtr⟩ := waitForRun_trace os tmo (tr ++ [connect]) name 1000
    have hWc := IsWaitForPipe_calls os tmo (tr ++ [connect]) name 1000 W hW
    have hW0 : List.countP isConnect W = 0 :=
      List.countP_eq_zero.2 (fun e he => by simp [hWc e he])
    have ht1W : t1 = tr ++ [connect] ++ W := by rw [ht1, hWtr]
    by_cases h2 : NT_SUCCESS r2.status = true
    · obtain ⟨rest, hrest, hcalls⟩ :=
        callAfterConnect_rest os (t1 ++ [connect]) r2.handle inp inLen outLen
      have htr : res.2 = tr ++ [connect] ++ W ++ [connect] ++ rest := by
        rw [hres]
        simp only [callRun]
        rw [if_neg h1', ← ht1, if_pos h2, hrest, ht1W]
      have h0 : List.countP isConnect rest = 0 :=
        List.countP_eq_zero.2 (fun e he => by simp [(hcalls e he).1])
      refine ⟨W, rest, hW, ht1W, htr, hcalls, ?_, fun hc => ?_⟩
      · rw [htr]
        simp only [List.append_assoc]
        rw [drop_length_append]
        simp [connectAttempts, List.countP_cons, List.countP_append, h0, hW0, connect,
          connectRequest, isConnect]
      · rw [h2] at hc
        exact absurd hc (by decide)
    · have htr : res = (r2.status, t1 ++ [connect]) := by
        rw [hres]
        simp only [callRun]
        rw [if_neg h1', ← ht1, if_neg h2]
      refine ⟨W, [], hW, ht1W, by rw [htr, ht1W]; simp, by simp, ?_,
        fun _ => ⟨rfl, by rw [htr]⟩⟩
      rw [htr, ht1W]
      simp only [List.append_assoc]
      rw [drop_length_append]
      simp [connectAttempts, List.countP_cons, List.countP_append, hW0, connect,
        connectRequest, isConnect]

/-- C4 (instance): with no listening instance `PhCallNamedPipe` issues a connect attempt, the
calls of `PhWaitForNamedPipe` with 1000 ms, a second connect attempt, and returns the status of
the second attempt. -/
theorem call_connect_attempts_witness :
    NT_SUCCESS (osNoServer ([] ++ [connectRequest [112]])).status = false ∧
    (PhCallNamedPipe osNoServer sampleTimeout [112] [1, 2] 2 8).run [] =
      (STATUS_PIPE_NOT_AVAILABLE,
        [connectRequest [112], .NtOpenFile DEVICE_NAMED_PIPE 0 false, .PhAllocate 16,
         .NtFsControlFile 16 FSCTL_PIPE_WAIT
           (.waitFor ⟨sampleTimeout 1000, 2, true, [112]⟩) 16 0,
         .PhFree 8192, .NtClose 16, connectRequest [112]]) ∧
    connectAttempts
      (((PhCallNamedPipe osNoServer sampleTimeout [112] [1, 2] 2 8).run []).2.drop 0) = 2 := by
  obtain ⟨W, rest, _, _, _, _, hcount, _⟩ :=
    (call_connect_attempts osNoServer sampleTimeout [] [112] [1, 2] 2 8).2 rfl
  exact ⟨rfl, rfl, hcount⟩

/-- C5: given that a successful connect stores a non-null handle, every run of
`PhCallNamedPipe` in which a connect attempt succeeded ends with the flush, then the calls of one
disconnect, then the close, all on the handle that attempt stored, and issues no flush,
disconnect request or close between the connect and that flush, whatever the set-information
request and the transceive returned; a run in which both attempts failed issues nothing but the
two attempts and the calls of `PhWaitForNamedPipe`. -/
theorem call_releases_pipe (os : OS) (tmo : Nat → LARGE_INTEGER) (tr : Trace)
    (name inp : List Nat) (inLen outLen : Nat)
    (hnn : ∀ t, NT_SUCCESS (os (t ++ [connectRequest name])).status = true →
      (os (t ++ [connectRequest name])).handle ≠ 0) :
    let connect := connectRequest name
    let r1 := os (tr ++ [connect])
    let t1 := ((PhWaitForNamedPipe os tmo name 1000).run (tr ++ [connect])).2
    let r2 := os (t1 ++ [connect])
    let res := (PhCallNamedPipe os tmo name inp inLen outLen).run tr
    (NT_SUCCESS r1.status = true →
      ∃ mid D, IsExchange r1.handle inp inLen outLen mid ∧ IsDisconnect r1.handle D ∧
        (∀ e ∈ mid, isRelease e = false) ∧
        res.2 = tr ++ [connect] ++ mid ++ [.NtFlushBuffersFile r1.handle] ++ D ++
          [.NtClose r1.handle]) ∧
    (NT_SUCCESS r1.status = false → NT_SUCCESS r2.status = true →
      ∃ mid D, IsExchange r2.handle inp inLen outLen mid ∧ IsDisconnect r2.handle D ∧
        (∀ e ∈ mid, isRelease e = false) ∧
        res.2 = t1 ++ [connect] ++ mid ++ [.NtFlushBuffersFile r2.handle] ++ D ++
          [.NtClose r2.handle]) ∧
    (NT_SUCCESS r1.status = false → NT_SUCCESS r2.status = false →
      ∃ W, IsWaitForPipe os tmo (tr ++ [connect]) name 1000 W ∧
        res.2 = tr ++ [connect] ++ W ++ [connect]) := by
  intro connect r1 t1 r2 res
  have hres : res = callRun os tmo tr name inp inLen outLen := PhCallNamedPipe_run ..
  have ht1 : t1 = (waitForRun os tmo (tr ++ [connect]) name 1000).2 := by
    show ((PhWaitForNamedPipe os tmo name 1000).run (tr ++ [connect])).2 = _
    rw [PhWaitForNamedPipe_run]
  refine ⟨fun h1 => ?_, fun h1 h2 => ?_, fun h1 h2 => ?_⟩
  · obtain ⟨mid, hm, _, hn⟩ :=
      callAfterConnect_trace os (tr ++ [connect]) r1.handle inp inLen outLen
    obtain ⟨D, hD, htr⟩ := hn (hnn tr h1)
    refine ⟨mid, D, hm, hD, fun e he => (IsExchange_calls _ _ _ _ _ hm e he).2.2, ?_⟩
    rw [hres]
    simp only [callRun]
    rw [if_pos h1]
    exact htr
  · have h1' : ¬ NT_SUCCESS r1.status = true := by simp [h1]
    obtain ⟨mid, hm, _, hn⟩ :=
      callAfterConnect_trace os (t1 ++ [connect]) r2.handle inp inLen outLen
    obtain ⟨D, hD, htr⟩ := hn (hnn t1 h2)
    refine ⟨mid, D, hm, hD, fun e he => (IsExchange_calls _ _ _ _ _ hm e he).2.2, ?_⟩
    rw [hres]
    simp only [callRun]
    rw [if_neg h1', ← ht1, if_pos h2]
    exact htr
  · have h1' : ¬ NT_SUCCESS r1.status = true := by simp [h1]
    have h2' : ¬ NT_SUCCESS r2.status = true := by simp [h2]
    obtain ⟨W, hW, hWtr⟩ := waitForRun_trace os tmo (tr ++ [connect]) name 1000
    refine ⟨W, hW, ?_⟩
    rw [hres]
    simp only [callRun]
    rw [if_neg h1', ← ht1, if_neg h2']
    show t1 ++ [connect] = _
    rw [ht1, hWtr]

/-- C5 (instance): under an operating system whose successful connects store the handle `32`,
whose first connect attempt fails and whose transceive fails, `PhCallNamedPipe` flushes,
disconnects and closes the handle `32` after the failed transceive. -/
theorem call_releases_pipe_witness :
    (∀ t, NT_SUCCESS (osConnectOnRetry (t ++ [connectRequest [112]])).status = true →
      (osConnectOnRetry (t ++ [connectRequest [112]])).handle ≠ 0) ∧
    (∃ mid D, IsExchange 32 [1, 2] 2 8 mid ∧ IsDisconnect 32 D ∧
      (∀ e ∈ mid, isRelease e = false) ∧
      ((PhCallNamedPipe osConnectOnRetry sampleTimeout [112] [1, 2] 2 8).run []).2 =
        ((PhWaitForNamedPipe osConnectOnRetry sampleTimeout [112] 1000).run
          ([] ++ [connectRequest [112]])).2 ++ [connectRequest [112]] ++ mid ++
          [.NtFlushBuffersFile 32] ++ D ++ [.NtClose 32]) ∧
    (PhCallNamedPipe osConnectOnRetry sampleTimeout [112] [1, 2] 2 8).run [] =
      (STATUS_ACCESS_DENIED,
        [connectRequest [112], .NtOpenFile DEVICE_NAMED_PIPE 0 false, .PhAllocate 16,
         .NtFsControlFile 16 FSCTL_PIPE_WAIT
           (.waitFor ⟨sampleTimeout 1000, 2, true, [112]⟩) 16 0,
         .PhFree 8192, .NtClose 16, connectRequest [112],
         .NtSetInformationFile 32 1 0,
         .NtFsControlFile 32 FSCTL_PIPE_TRANSCEIVE (.bytes [1, 2]) 2 8,
         .NtFlushBuffersFile 32, .NtFsControlFile 32 FSCTL_PIPE_DISCONNECT .null 0 0,
         .NtClose 32]) := by
  have hnn : ∀ t, NT_SUCCESS (osConnectOnRetry (t ++ [connectRequest [112]])).status = true →
      (osConnectOnRetry (t ++ [connectRequest [112]])).handle ≠ 0 := by
    intro t
    have hl : (t ++ [connectRequest [112]]).getLast? =
        some (.NtCreateFile (DEVICE_NAMED_PIPE ++ [112])) := by
      simp [connectRequest]
    unfold osConnectOnRetry
    rw [hl]
    simp only []
    split_ifs
    · intro hc
      exact absurd hc (by decide)
    · intro _
      exact (by decide : (32 : Nat) ≠ 0)
  exact ⟨hnn,
    (call_releases_pipe osConnectOnRetry sampleTimeout [] [112] [1, 2] 2 8 hnn).2.1 rfl rfl,
    rfl⟩

/-! ## Wait for a pipe instance -/

/-- C11 (amended): for every pipe name whose byte length added to the offset of `Name` is below
`2 ^ 32` and every `Timeout`, once the pipe-device directory is open `PhWaitForNamedPipe`
allocates a descriptor of the offset of `Name` plus the byte length of the name, issues exactly
one wait request with that descriptor and that length, then frees the descriptor and closes the
directory handle, and returns the status of the request.  The descriptor has `NameLength` the
byte length of the name, `Name` the name, `TimeoutSpecified` set, and as timeout the conversion
of `Timeout` when it is not zero and otherwise the value with `LowPart` 0 and `HighPart`
`MINLONG`, the most negative 64-bit value.  When the directory open fails nothing else is
issued and its status is returned. -/
theorem wait_for_named_pipe_request (os : OS) (tmo : Nat → LARGE_INTEGER) (tr : Trace)
    (name : List Nat) (Timeout : Nat)
    (hfit : FIELD_OFFSET_FILE_PIPE_WAIT_FOR_BUFFER_Name + 2 * name.length < 2 ^ 32) :
    let open0 := Event.NtOpenFile DEVICE_NAMED_PIPE 0 false
    let d := os (tr ++ [open0])
    let total := FIELD_OFFSET_FILE_PIPE_WAIT_FOR_BUFFER_Name + 2 * name.length
    let alloc := Event.PhAllocate total
    let descriptor : FILE_PIPE_WAIT_FOR_BUFFER :=
      { Timeout := if Timeout ≠ 0 then tmo Timeout else ⟨0, MINLONG⟩
        NameLength := 2 * name.length
        TimeoutSpecified := true
        Name := name }
    let req := Event.NtFsControlFile d.handle FSCTL_PIPE_WAIT (.waitFor descriptor) total 0
    let res := (PhWaitForNamedPipe os tmo name Timeout).run tr
    (NT_SUCCESS d.status = true →
      res = ((os (tr ++ [open0, alloc, req])).status,
        tr ++ [open0, alloc, req, .PhFree (os (tr ++ [open0, alloc])).pointer,
          .NtClose d.handle])) ∧
    (NT_SUCCESS d.status = false → res = (d.status, tr ++ [open0])) ∧
    LARGE_INTEGER.QuadPart ⟨0, MINLONG⟩ = -(2 ^ 63) := by
  intro open0 d total alloc descriptor req res
  have hres : res = waitForRun os tmo tr name Timeout := PhWaitForNamedPipe_run ..
  refine ⟨fun hd => ?_, fun hd => ?_, ?_⟩
  · rw [hres]
    simp only [waitForRun]
    rw [if_pos hd, waitForBufferLength_fit name hfit, waitForBuffer_fit tmo name Timeout hfit]
  · have hd' : ¬ NT_SUCCESS d.status = true := by simp [hd]
    rw [hres]
    simp only [waitForRun]
    rw [if_neg hd']
  · unfold LARGE_INTEGER.QuadPart MINLONG
    norm_num

/-- C11 (amended, instance): for the one-character name `p` and `Timeout` 0, with the
directory open, `PhWaitForNamedPipe` allocates 16 bytes, issues one wait request whose
descriptor has `NameLength` 2, the name, the flag set and the timeout with `LowPart` 0 and
`HighPart` `MINLONG`, frees the descriptor and closes the directory handle. -/
theorem wait_for_named_pipe_request_witness :
    FIELD_OFFSET_FILE_PIPE_WAIT_FOR_BUFFER_Name + 2 * [112].length < 2 ^ 32 ∧
    NT_SUCCESS (osNoServer ([] ++ [Event.NtOpenFile DEVICE_NAMED_PIPE 0 false])).status = true ∧
    (PhWaitForNamedPipe osNoServer sampleTimeout [112] 0).run [] =
      (STATUS_SUCCESS,
        [.NtOpenFile DEVICE_NAMED_PIPE 0 false, .PhAllocate 16,
         .NtFsControlFile 16 FSCTL_PIPE_WAIT (.waitFor ⟨⟨0, MINLONG⟩, 2, true, [112]⟩) 16 0,
         .PhFree 8192, .NtClose 16]) :=
  ⟨by decide, rfl,
   (wait_for_named_pipe_request osNoServer sampleTimeout [] [112] 0 (by decide)).1 rfl⟩

/-- C11 (as stated, refuted): for a pipe name of 2147483647 characters, whose byte length is
4294967294, with the directory open, `PhWaitForNamedPipe` allocates 12 bytes and issues the
wait request with the total length 12 and `NameLength` 4294967294: the total length is not the
offset of `Name` plus `NameLength`. -/
theorem wait_descriptor_length_wraps :
    NT_SUCCESS (osNoServer ([] ++ [Event.NtOpenFile DEVICE_NAMED_PIPE 0 false])).status = true ∧
    2 * (List.replicate 2147483647 112).length = 4294967294 ∧
    ((PhWaitForNamedPipe osNoServer sampleTimeout (List.replicate 2147483647 112) 1000).run
        []).2 =
      [.NtOpenFile DEVICE_NAMED_PIPE 0 false, .PhAllocate 12,
       .NtFsControlFile 16 FSCTL_PIPE_WAIT
         (.waitFor ⟨sampleTimeout 1000, 4294967294, true, List.replicate 2147483647 112⟩) 12 0,
       .PhFree 8192, .NtClose 16] ∧
    (12 : Nat) ≠ FIELD_OFFSET_FILE_PIPE_WAIT_FOR_BUFFER_Name + 4294967294 := by
  refine ⟨rfl, ?_, ?_, by decide⟩
  · rw [List.length_replicate]
  · rw [PhWaitForNamedPipe_run]
    exact waitForRun_long_name _ (List.length_replicate _ _)

end NativePipe
